import Mathlib

/-!
Shallow embedding of the real-time simulation core of `pygame/asteroids_deluxe.py`
(the fixed-timestep update loop: motion/wraparound, countdown timers, collision
resolution, wave progression, session state), together with theorems settling the
frozen claims about it.

Modelling conventions:
* Python floats are modelled as exact rationals (`ℚ`); screen coordinates,
  velocities and all fixed constants are rational.
* `random.*` calls are modelled by consuming draws from a finite list of
  rationals (`List ℚ`); each primitive maps the raw draw into the call's range
  (clamping), so every in-range outcome is representable and no out-of-range
  outcome can occur.  An exhausted list yields the draw `0`.
* `math.sin/cos/atan2/sqrt` appear in the source only in velocity / spawn-offset
  computations; they are carried as an abstract parameter record `Trig` of
  rational-valued functions, keeping every definition executable.
* `sqrt(dx^2+dy^2) < r1+r2` (circle overlap) is translated to the equivalent
  squared comparison `dx^2+dy^2 < (r1+r2)^2` (both sides nonnegative).
* The render-only irregular polygon silhouette of an asteroid (and its random
  draws) is omitted: it is documented in the source as cosmetic and takes no
  part in motion, collision, or any other simulation behaviour.
-/

attribute [local semireducible] Rat.add Rat.mul Rat.sub Rat.inv

namespace AsteroidsDeluxe

/-- Screen settings: `WIDTH, HEIGHT = 1200, 900`. -/
def WIDTH : ℚ := 1200

/-- Screen height. -/
def HEIGHT : ℚ := 900

/-- Consume one raw draw from the entropy list (0 when exhausted). -/
def drawQ : List ℚ → ℚ × List ℚ
  | [] => (0, [])
  | u :: r => (u, r)

/-- Clamp a rational into `[a, b]`. -/
def clampQ (a b u : ℚ) : ℚ := if u < a then a else if u > b then b else u

/-- `random.uniform(a, b)`: an arbitrary rational in `[a, b]`. -/
def uniformQ (a b : ℚ) (r : List ℚ) : ℚ × List ℚ :=
  let p := drawQ r
  (clampQ a b p.1, p.2)

/-- `random.uniform(0, 2*math.pi)` for particle directions: the bound is
irrational, and the value only ever feeds the abstract trig functions, so the
raw draw is passed through unchanged. -/
def uniformAngle (r : List ℚ) : ℚ × List ℚ := drawQ r

/-- `random.randint(a, b)`: an arbitrary integer in `[a, b]` (inclusive). -/
def randintQ (a b : ℤ) (r : List ℚ) : ℤ × List ℚ :=
  let p := drawQ r
  (max a (min b ⌊p.1⌋), p.2)

/-- Abstract interface for the transcendental functions used by the source
(`math.sin`/`cos` on degree-valued ship angles, on radian-valued random angles,
`math.atan2`, `math.sqrt`).  They only ever feed velocities and spawn offsets. -/
structure Trig where
  sinD : ℚ → ℚ
  cosD : ℚ → ℚ
  sinR : ℚ → ℚ
  cosR : ℚ → ℚ
  atanTwo : ℚ → ℚ → ℚ
  sqrtQ : ℚ → ℚ

/-- A degenerate but perfectly legal trig instance used to evaluate concrete
runs (the theorems that quantify over `Trig` hold for every instance). -/
def trigZ : Trig :=
  { sinD := fun _ => 0, cosD := fun _ => 1, sinR := fun _ => 0, cosR := fun _ => 1,
    atanTwo := fun _ _ => 0, sqrtQ := fun _ => 0 }

/-- The wraparound applied to one coordinate by every `update` method:
`if c < 0: c = limit  elif c > limit: c = 0`. -/
def wrapCoord (limit x : ℚ) : ℚ :=
  if x < 0 then limit else if x > limit then 0 else x

/-- Particle colour tags (`'accent'`, `'primary'`, `'secondary'`, `'bright'`). -/
inductive PColor
  | accent | primary | secondary | bright
deriving DecidableEq

/-- `Particle`: cosmetic position/velocity/lifetime record. -/
structure Particle where
  x : ℚ
  y : ℚ
  vx : ℚ
  vy : ℚ
  color_type : PColor
  lifetime : ℤ
  max_lifetime : ℤ
  size : ℤ
deriving DecidableEq

/-- `Particle.__init__` (the size is `random.randint(2, 4)`). -/
def Particle.init (x y vx vy : ℚ) (c : PColor) (lt : ℤ) (r : List ℚ) :
    Particle × List ℚ :=
  let p := randintQ 2 4 r
  ({ x := x, y := y, vx := vx, vy := vy, color_type := c,
     lifetime := lt, max_lifetime := lt, size := p.1 }, p.2)

/-- `Particle.update`: drift, age, and damp velocity by `0.98`. -/
def Particle.update (p : Particle) : Particle :=
  { p with x := p.x + p.vx, y := p.y + p.vy, lifetime := p.lifetime - 1,
           vx := p.vx * (49/50), vy := p.vy * (49/50) }

/-- `Particle.is_expired`. -/
def Particle.is_expired (p : Particle) : Bool := p.lifetime ≤ 0

/-- `Ship` state record. -/
structure Ship where
  x : ℚ
  y : ℚ
  angle : ℚ
  vx : ℚ
  vy : ℚ
  rapid_fire : Bool
  rapid_fire_timer : ℤ
  shield : Bool
  shield_timer : ℤ
  invulnerable : Bool
  invulnerable_timer : ℤ
  hyperspace_cooldown : ℤ
  is_thrusting : Bool
deriving DecidableEq

/-- `self.rotation_speed = 5`. -/
def Ship.rotation_speed : ℚ := 5
/-- `self.thrust_power = 0.2`. -/
def Ship.thrust_power : ℚ := 1/5
/-- `self.max_speed = 8`. -/
def Ship.max_speed : ℚ := 8
/-- `self.friction = 0.99`. -/
def Ship.friction : ℚ := 99/100
/-- `self.radius = 15`. -/
def Ship.radius : ℚ := 15

/-- `Ship.__init__(x, y)`. -/
def Ship.init (x y : ℚ) : Ship :=
  { x := x, y := y, angle := 0, vx := 0, vy := 0,
    rapid_fire := false, rapid_fire_timer := 0,
    shield := false, shield_timer := 0,
    invulnerable := false, invulnerable_timer := 0,
    hyperspace_cooldown := 0, is_thrusting := false }

/-- One burst of `n` omnidirectional particles at `(x, y)` — the loop body used
by `hyperspace_jump` (speed `uniform(1,5)`, lifetime 40) and by
`create_explosion` (speed `uniform(2,8)`, lifetime 40). -/
def spawnBurst (T : Trig) (x y : ℚ) (c : PColor) (lt : ℤ) (lo hi : ℚ) :
    ℕ → List ℚ → List Particle × List ℚ
  | 0, r => ([], r)
  | Nat.succ n, r =>
    let a := uniformAngle r
    let s := uniformQ lo hi a.2
    let vx := T.cosR a.1 * s.1
    let vy := T.sinR a.1 * s.1
    let p := Particle.init x y vx vy c lt s.2
    let rest := spawnBurst T x y c lt lo hi n p.2
    (p.1 :: rest.1, rest.2)

/-- `create_explosion(x, y, particles, color_type)`: append a 30-particle burst. -/
def create_explosion (T : Trig) (x y : ℚ) (particles : List Particle)
    (c : PColor) (r : List ℚ) : List Particle × List ℚ :=
  let b := spawnBurst T x y c 40 2 8 30 r
  (particles ++ b.1, b.2)

/-- `Ship.hyperspace_jump`: 30-particle burst at the old position, relocation to
`(randint(100, WIDTH-100), randint(100, HEIGHT-100))` with zeroed velocity, and
a 30-particle burst at the new position. -/
def Ship.hyperspace_jump (T : Trig) (s : Ship) (particles : List Particle)
    (r : List ℚ) : Ship × List Particle × List ℚ :=
  let b1 := spawnBurst T s.x s.y PColor.bright 40 1 5 30 r
  let px := randintQ 100 1100 b1.2
  let py := randintQ 100 800 px.2
  let s1 := { s with x := (px.1 : ℚ), y := (py.1 : ℚ), vx := 0, vy := 0 }
  let b2 := spawnBurst T s1.x s1.y PColor.bright 40 1 5 30 py.2
  (s1, particles ++ b1.1 ++ b2.1, b2.2)

/-- `Ship.spawn_thrust_particles`: with probability `0.5` emit one trail
particle behind the ship. -/
def Ship.spawn_thrust_particles (T : Trig) (s : Ship) (particles : List Particle)
    (r : List ℚ) : List Particle × List ℚ :=
  let c := drawQ r
  if c.1 < 1/2 then
    let back_x := s.x - T.sinD s.angle * Ship.radius
    let back_y := s.y + T.cosD s.angle * Ship.radius
    let j1 := uniformQ (-1) 1 c.2
    let j2 := uniformQ (-1) 1 j1.2
    let pvx := s.vx - T.sinD s.angle * 3 + j1.1
    let pvy := s.vy + T.cosD s.angle * 3 + j2.1
    let p := Particle.init back_x back_y pvx pvy PColor.accent 20 j2.2
    (particles ++ [p.1], p.2)
  else (particles, c.2)

/-- Logical control snapshot for one frame. -/
structure Keys where
  left : Bool
  right : Bool
  up : Bool
  lctrl : Bool
  lshift : Bool
deriving DecidableEq

/-- No key pressed. -/
def Keys.released : Keys :=
  { left := false, right := false, up := false, lctrl := false, lshift := false }

/-- `Ship.handle_input`: rotation, thrust with speed cap by rescaling, thrust
particles, and the hyperspace jump guarded by `hyperspace_cooldown <= 0`
(on acceptance the cooldown is reset to 180 ticks = 3 seconds). -/
def Ship.handle_input (T : Trig) (keys : Keys) (s : Ship)
    (particles : List Particle) (r : List ℚ) : Ship × List Particle × List ℚ :=
  let s := if keys.left then { s with angle := s.angle - Ship.rotation_speed } else s
  let s := if keys.right then { s with angle := s.angle + Ship.rotation_speed } else s
  let s := { s with is_thrusting := false }
  let step :=
    if keys.up then
      let s := { s with is_thrusting := true }
      let vx := s.vx + T.sinD s.angle * Ship.thrust_power
      let vy := s.vy - T.cosD s.angle * Ship.thrust_power
      let speed := T.sqrtQ (vx ^ 2 + vy ^ 2)
      let v :=
        if speed > Ship.max_speed then
          (vx / speed * Ship.max_speed, vy / speed * Ship.max_speed)
        else (vx, vy)
      let s := { s with vx := v.1, vy := v.2 }
      let tp := Ship.spawn_thrust_particles T s particles r
      (s, tp.1, tp.2)
    else (s, particles, r)
  let s := step.1
  if keys.lshift ∧ s.hyperspace_cooldown ≤ 0 then
    let hj := Ship.hyperspace_jump T s step.2.1 step.2.2
    ({ hj.1 with hyperspace_cooldown := 180 }, hj.2.1, hj.2.2)
  else (s, step.2.1, step.2.2)

/-- `Ship.update`: friction, integration, wraparound, and the four countdown
timers (each decremented only while positive; the matching boolean flag is
cleared on the tick its timer reaches 0). -/
def Ship.update (s : Ship) : Ship :=
  let vx := s.vx * Ship.friction
  let vy := s.vy * Ship.friction
  let x := wrapCoord WIDTH (s.x + vx)
  let y := wrapCoord HEIGHT (s.y + vy)
  let rft := if s.rapid_fire_timer > 0 then s.rapid_fire_timer - 1 else s.rapid_fire_timer
  let rf := if s.rapid_fire_timer > 0 ∧ s.rapid_fire_timer - 1 = 0 then false else s.rapid_fire
  let sht := if s.shield_timer > 0 then s.shield_timer - 1 else s.shield_timer
  let sh := if s.shield_timer > 0 ∧ s.shield_timer - 1 = 0 then false else s.shield
  let ivt := if s.invulnerable_timer > 0 then s.invulnerable_timer - 1 else s.invulnerable_timer
  let iv := if s.invulnerable_timer > 0 ∧ s.invulnerable_timer - 1 = 0 then false else s.invulnerable
  let hc := if s.hyperspace_cooldown > 0 then s.hyperspace_cooldown - 1 else s.hyperspace_cooldown
  { s with vx := vx, vy := vy, x := x, y := y,
           rapid_fire_timer := rft, rapid_fire := rf,
           shield_timer := sht, shield := sh,
           invulnerable_timer := ivt, invulnerable := iv,
           hyperspace_cooldown := hc }

/-- `Bullet` (also the base of the UFO bullet variant, which differs only in
how it is drawn). -/
structure Bullet where
  x : ℚ
  y : ℚ
  vx : ℚ
  vy : ℚ
  lifetime : ℤ
deriving DecidableEq

/-- `self.radius = 3`. -/
def Bullet.radius : ℚ := 3

/-- `Bullet.update`: integrate, age by one tick, wrap. -/
def Bullet.update (b : Bullet) : Bullet :=
  { b with x := wrapCoord WIDTH (b.x + b.vx), y := wrapCoord HEIGHT (b.y + b.vy),
           lifetime := b.lifetime - 1 }

/-- `Bullet.is_expired`. -/
def Bullet.is_expired (b : Bullet) : Bool := b.lifetime ≤ 0

/-- `Ship.shoot`: one bullet at the nose offset, muzzle speed 10 added to the
ship velocity along the facing direction, lifetime 60. -/
def Ship.shoot (T : Trig) (s : Ship) : Bullet :=
  { x := s.x + T.sinD s.angle * Ship.radius,
    y := s.y - T.cosD s.angle * Ship.radius,
    vx := s.vx + T.sinD s.angle * 10,
    vy := s.vy - T.cosD s.angle * 10,
    lifetime := 60 }

/-- Obstacle size classes. -/
inductive ASize
  | large | medium | small
deriving DecidableEq

/-- Fixed collision radius per size class. -/
def ASize.radius : ASize → ℚ
  | ASize.large => 40
  | ASize.medium => 25
  | ASize.small => 15

/-- Fixed score value per size class. -/
def ASize.points : ASize → ℤ
  | ASize.large => 20
  | ASize.medium => 50
  | ASize.small => 100

/-- `Asteroid` state (the render-only polygon silhouette is omitted, see the
file header). -/
structure Asteroid where
  x : ℚ
  y : ℚ
  size : ASize
  vx : ℚ
  vy : ℚ
  rotation : ℚ
  rotation_rate : ℚ
deriving DecidableEq

/-- The near-stationary fix in `Asteroid.__init__`:
`if abs(v) < 0.5: v = 1 if v >= 0 else -1`. -/
def forceMinSpeed (v : ℚ) : ℚ :=
  if |v| < 1/2 then (if 0 ≤ v then 1 else -1) else v

/-- `Asteroid.__init__(x, y, size)`: velocity components `uniform(-2, 2)` with
the near-stationary fix, random rotation and rotation rate. -/
def Asteroid.init (x y : ℚ) (size : ASize) (r : List ℚ) : Asteroid × List ℚ :=
  let v1 := uniformQ (-2) 2 r
  let v2 := uniformQ (-2) 2 v1.2
  let rot := uniformQ 0 360 v2.2
  let rr := uniformQ (-2) 2 rot.2
  ({ x := x, y := y, size := size,
     vx := forceMinSpeed v1.1, vy := forceMinSpeed v2.1,
     rotation := rot.1, rotation_rate := rr.1 }, rr.2)

/-- `Asteroid.update`: integrate, spin, wrap. -/
def Asteroid.update (a : Asteroid) : Asteroid :=
  { a with x := wrapCoord WIDTH (a.x + a.vx), y := wrapCoord HEIGHT (a.y + a.vy),
           rotation := a.rotation + a.rotation_rate }

/-- `Asteroid.split`: a large obstacle yields two medium ones at its position,
a medium one two small ones, a small one nothing. -/
def Asteroid.split (a : Asteroid) (r : List ℚ) : List Asteroid × List ℚ :=
  match a.size with
  | ASize.large =>
    let c1 := Asteroid.init a.x a.y ASize.medium r
    let c2 := Asteroid.init a.x a.y ASize.medium c1.2
    ([c1.1, c2.1], c2.2)
  | ASize.medium =>
    let c1 := Asteroid.init a.x a.y ASize.small r
    let c2 := Asteroid.init a.x a.y ASize.small c1.2
    ([c1.1, c2.1], c2.2)
  | ASize.small => ([], r)

/-- Exact circle overlap, in squared form (`sqrt(d2) < rsum` with both sides
nonnegative). -/
def collides (x1 y1 r1 x2 y2 r2 : ℚ) : Bool :=
  (x1 - x2) ^ 2 + (y1 - y2) ^ 2 < (r1 + r2) ^ 2

/-- `Asteroid.check_collision_bullet`. -/
def Asteroid.check_collision_bullet (a : Asteroid) (b : Bullet) : Bool :=
  collides a.x a.y a.size.radius b.x b.y Bullet.radius

/-- `Asteroid.check_collision_ship`. -/
def Asteroid.check_collision_ship (a : Asteroid) (s : Ship) : Bool :=
  collides a.x a.y a.size.radius s.x s.y Ship.radius

/-- `UFO` state. -/
structure UFO where
  x : ℚ
  y : ℚ
  vx : ℚ
  vy : ℚ
  shoot_cooldown : ℤ
deriving DecidableEq

/-- `self.radius = 20`. -/
def UFO.radius : ℚ := 20
/-- `self.shoot_delay = 90` (1.5 seconds). -/
def UFO.shoot_delay : ℤ := 90

/-- `UFO.__init__`: spawn just outside the left or right edge with inward
horizontal velocity and mild vertical drift. -/
def UFO.init (r : List ℚ) : UFO × List ℚ :=
  let side := drawQ r
  let fromLeft := side.1 < 1/2
  let hv := if fromLeft then uniformQ 1 2 side.2 else uniformQ (-2) (-1) side.2
  let yy := randintQ 100 800 hv.2
  let vv := uniformQ (-1) 1 yy.2
  ({ x := if fromLeft then -20 else WIDTH + 20, y := (yy.1 : ℚ),
     vx := hv.1, vy := vv.1, shoot_cooldown := 0 }, vv.2)

/-- `UFO.check_collision_bullet`. -/
def UFO.check_collision_bullet (u : UFO) (b : Bullet) : Bool :=
  collides u.x u.y UFO.radius b.x b.y Bullet.radius

/-- `UFO.check_collision_ship`. -/
def UFO.check_collision_ship (u : UFO) (s : Ship) : Bool :=
  collides u.x u.y UFO.radius s.x s.y Ship.radius

/-- `min(ships, key=distance-to-the-UFO)`; Python's `min` keeps the earliest
element among ties. -/
def nearestShip (u : UFO) : List Ship → Option Ship
  | [] => none
  | s :: rest =>
    match nearestShip u rest with
    | none => some s
    | some t =>
      if (t.x - u.x) ^ 2 + (t.y - u.y) ^ 2 < (s.x - u.x) ^ 2 + (s.y - u.y) ^ 2 then
        some t
      else some s

/-- `UFO.shoot_at(target)`: aimed shot with `uniform(-0.3, 0.3)` angular
inaccuracy, speed 5, fired from the UFO's position. -/
def UFO.shoot_at (T : Trig) (u : UFO) (target : Ship) (r : List ℚ) :
    Bullet × List ℚ :=
  let base := T.atanTwo (target.y - u.y) (target.x - u.x)
  let inacc := uniformQ (-3/10) (3/10) r
  let a := base + inacc.1
  ({ x := u.x, y := u.y, vx := T.cosR a * 5, vy := T.sinR a * 5, lifetime := 60 }, inacc.2)

/-- `UFO.update(ships)`: integrate, jitter and clamp vertical drift, return
early without shooting when off screen, otherwise decrement the shoot cooldown
and fire an aimed bullet at the nearest ship when it has elapsed. -/
def UFO.update (T : Trig) (u : UFO) (ships : List Ship) (r : List ℚ) :
    UFO × Option Bullet × List ℚ :=
  let u := { u with x := u.x + u.vx, y := u.y + u.vy }
  let j := uniformQ (-1/10) (1/10) r
  let u := { u with vy := max (-2) (min 2 (u.vy + j.1)) }
  if u.x < -50 ∨ u.x > WIDTH + 50 then (u, none, j.2)
  else
    let u := { u with shoot_cooldown := u.shoot_cooldown - 1 }
    if u.shoot_cooldown ≤ 0 then
      match nearestShip u ships with
      | some t =>
        let b := UFO.shoot_at T u t j.2
        ({ u with shoot_cooldown := UFO.shoot_delay }, some b.1, b.2)
      | none => (u, none, j.2)
    else (u, none, j.2)

/-- Buff kinds (`'rapid_fire'` / `'shield'`). -/
inductive PType
  | rapid_fire | shield
deriving DecidableEq

/-- `PowerUp` state. -/
structure PowerUp where
  x : ℚ
  y : ℚ
  power_type : PType
  lifetime : ℤ
  pulse : ℚ
deriving DecidableEq

/-- `self.radius = 15`. -/
def PowerUp.radius : ℚ := 15

/-- `PowerUp.__init__` (`lifetime = 600`, 10 seconds). -/
def PowerUp.init (x y : ℚ) (t : PType) : PowerUp :=
  { x := x, y := y, power_type := t, lifetime := 600, pulse := 0 }

/-- `PowerUp.update`. -/
def PowerUp.update (p : PowerUp) : PowerUp :=
  { p with lifetime := p.lifetime - 1, pulse := p.pulse + 1/10 }

/-- `PowerUp.is_expired`. -/
def PowerUp.is_expired (p : PowerUp) : Bool := p.lifetime ≤ 0

/-- `PowerUp.check_collision_ship`. -/
def PowerUp.check_collision_ship (p : PowerUp) (s : Ship) : Bool :=
  collides p.x p.y PowerUp.radius s.x s.y Ship.radius

/-- Bound on the candidate redraws of the `while True` rejection loop in
`spawn_asteroids` (the source loops until acceptance; the model returns `none`
when the entropy budget is exhausted instead). -/
def spawnFuel : ℕ := 1000

/-- One iteration stack of the rejection loop: draw `(randint(0, WIDTH),
randint(0, HEIGHT))` and accept unless the point is within the 150-wide safe
square around the world center (`abs(x - WIDTH//2) > 150 or
abs(y - HEIGHT//2) > 150`). -/
def pickSpawnPos : ℕ → List ℚ → Option ((ℚ × ℚ) × List ℚ)
  | 0, _ => none
  | Nat.succ n, r =>
    let px := randintQ 0 1200 r
    let py := randintQ 0 900 px.2
    if 150 < |(px.1 : ℚ) - 600| ∨ 150 < |(py.1 : ℚ) - 450| then
      some (((px.1 : ℚ), (py.1 : ℚ)), py.2)
    else pickSpawnPos n py.2

/-- The `for _ in range(actual_count)` loop of `spawn_asteroids`. -/
def spawnLoop (size : ASize) : ℕ → List ℚ → Option (List Asteroid × List ℚ)
  | 0, r => some ([], r)
  | Nat.succ n, r =>
    match pickSpawnPos spawnFuel r with
    | none => none
    | some (pos, r1) =>
      match spawnLoop size n (Asteroid.init pos.1 pos.2 size r1).2 with
      | none => none
      | some (rest, r2) => some ((Asteroid.init pos.1 pos.2 size r1).1 :: rest, r2)

/-- `spawn_asteroids(count, size, wave)`: `count + (wave - 1)` obstacles at
accepted random positions. -/
def spawn_asteroids (count : ℤ) (size : ASize) (wave : ℤ) (r : List ℚ) :
    Option (List Asteroid × List ℚ) :=
  spawnLoop size (count + (wave - 1)).toNat r

/-- The per-tick sound triggers surfaced to the host (`FrameEvents`): each
constructor corresponds to one `*.play()` call site in the update path. -/
inductive Event
  | laser | ufoLaser | explosion | achievement | levelUp | buffCollected
deriving DecidableEq

/-- `SHOOT_DELAY = 10`. -/
def SHOOT_DELAY : ℤ := 10
/-- `RAPID_FIRE_DELAY = 5`. -/
def RAPID_FIRE_DELAY : ℤ := 5
/-- `UFO_SPAWN_DELAY = 600` (10 seconds). -/
def UFO_SPAWN_DELAY : ℤ := 600

/-- The complete simulation state owned by the game loop. -/
structure GameState where
  ship : Ship
  asteroids : List Asteroid
  bullets : List Bullet
  ufo_bullets : List Bullet
  particles : List Particle
  powerups : List PowerUp
  ufo : Option UFO
  score : ℤ
  lives : ℤ
  wave : ℤ
  game_over : Bool
  shoot_cooldown : ℤ
  ufo_spawn_timer : ℤ
deriving DecidableEq

/-- Working record threaded through the phases of one tick: the game state,
the events emitted so far, and the remaining entropy. -/
structure Tick where
  gs : GameState
  events : List Event
  rng : List ℚ
deriving DecidableEq

/-- Find the first element satisfying `p`, returning the elements before it,
the element, and the elements after it (Python's `for ... if ...: break`
pattern combined with `list.remove`). -/
def splitFirst (p : α → Bool) : List α → Option (List α × α × List α)
  | [] => none
  | x :: xs =>
    if p x then some ([], x, xs)
    else
      match splitFirst p xs with
      | none => none
      | some (pre, y, suf) => some (x :: pre, y, suf)

/-- Phase 1 — `ship.handle_input(keys, particles)`. -/
def inputPhase (T : Trig) (keys : Keys) (tk : Tick) : Tick :=
  let res := Ship.handle_input T keys tk.gs.ship tk.gs.particles tk.rng
  { gs := { tk.gs with ship := res.1, particles := res.2.1 },
    events := tk.events, rng := res.2.2 }

/-- Phase 2 — shooting: fire while `LCTRL` is held and the cooldown has
elapsed (shorter delay under rapid fire), then decrement the cooldown. -/
def firePhase (T : Trig) (keys : Keys) (tk : Tick) : Tick :=
  let delay := if tk.gs.ship.rapid_fire then RAPID_FIRE_DELAY else SHOOT_DELAY
  let tk1 :=
    if keys.lctrl ∧ tk.gs.shoot_cooldown ≤ 0 then
      let gs1 := { tk.gs with
        bullets := tk.gs.bullets ++ [Ship.shoot T tk.gs.ship],
        shoot_cooldown := delay }
      { gs := gs1, events := tk.events ++ [Event.laser], rng := tk.rng }
    else tk
  let cd :=
    if tk1.gs.shoot_cooldown > 0 then tk1.gs.shoot_cooldown - 1
    else tk1.gs.shoot_cooldown
  { tk1 with gs := { tk1.gs with shoot_cooldown := cd } }

/-- The particle update-and-retire loop. -/
def tickParticles (ps : List Particle) : List Particle :=
  (ps.map Particle.update).filter (fun p => !p.is_expired)

/-- The bullet update-and-retire loop (player and UFO bullets alike). -/
def tickBullets (bs : List Bullet) : List Bullet :=
  (bs.map Bullet.update).filter (fun b => !b.is_expired)

/-- The power-up update-and-retire loop. -/
def tickPowerups (ps : List PowerUp) : List PowerUp :=
  (ps.map PowerUp.update).filter (fun p => !p.is_expired)

/-- Phase 3 — motion and lifecycle: ship, particles, both bullet lists, and
asteroids (in the source's order). -/
def motionPhase (tk : Tick) : Tick :=
  { tk with gs := { tk.gs with
      ship := Ship.update tk.gs.ship,
      particles := tickParticles tk.gs.particles,
      bullets := tickBullets tk.gs.bullets,
      ufo_bullets := tickBullets tk.gs.ufo_bullets,
      asteroids := tk.gs.asteroids.map Asteroid.update } }

/-- Phase 4 — UFO update: move/shoot via `UFO.update`, append any new UFO
bullet, and remove the UFO once fully past either horizontal edge. -/
def ufoPhase (T : Trig) (tk : Tick) : Tick :=
  match tk.gs.ufo with
  | none => tk
  | some u =>
    let res := UFO.update T u [tk.gs.ship] tk.rng
    let u1 := res.1
    let shot :=
      match res.2.1 with
      | some b => (tk.gs.ufo_bullets ++ [b], tk.events ++ [Event.ufoLaser])
      | none => (tk.gs.ufo_bullets, tk.events)
    let uOut := if u1.x < -50 ∨ u1.x > WIDTH + 50 then none else some u1
    { gs := { tk.gs with ufo := uOut, ufo_bullets := shot.1 },
      events := shot.2, rng := res.2.2 }

/-- Phase 5 — periodic UFO spawning (`ufo_spawn_timer`). -/
def ufoSpawnPhase (tk : Tick) : Tick :=
  let t := tk.gs.ufo_spawn_timer + 1
  if t ≥ UFO_SPAWN_DELAY ∧ tk.gs.ufo.isNone then
    let ui := UFO.init tk.rng
    { gs := { tk.gs with ufo := some ui.1, ufo_spawn_timer := 0 },
      events := tk.events, rng := ui.2 }
  else { tk with gs := { tk.gs with ufo_spawn_timer := t } }

/-- Phase 6 — power-up aging. -/
def powerupMotionPhase (tk : Tick) : Tick :=
  { tk with gs := { tk.gs with powerups := tickPowerups tk.gs.powerups } }

/-- Accumulator for the player-bullet collision loop. -/
structure BulletRes where
  bullets : List Bullet
  asteroids : List Asteroid
  ufo : Option UFO
  score : ℤ
  particles : List Particle
  powerups : List PowerUp
  events : List Event
  rng : List ℚ
deriving DecidableEq

/-- The bullet–asteroid / bullet–UFO collision loop: each bullet resolves
against the first overlapping asteroid (score, explosion, split-and-extend,
10% buff drop) or, failing that, against the UFO (score 500, bright explosion,
UFO removed); a bullet that hits nothing is kept. -/
def processBullets (T : Trig) : List Bullet → BulletRes → BulletRes
  | [], acc => acc
  | b :: bs, acc =>
    match splitFirst (fun a => a.check_collision_bullet b) acc.asteroids with
    | some (pre, a, suf) =>
      let ex := create_explosion T a.x a.y acc.particles PColor.accent acc.rng
      let sp := a.split ex.2
      let roll := drawQ sp.2
      let pu :=
        if roll.1 < 1/10 then
          let k := drawQ roll.2
          (acc.powerups ++
            [PowerUp.init a.x a.y (if k.1 < 1/2 then PType.rapid_fire else PType.shield)],
           k.2)
        else (acc.powerups, roll.2)
      processBullets T bs
        { acc with asteroids := pre ++ suf ++ sp.1,
                   score := acc.score + a.size.points,
                   particles := ex.1, powerups := pu.1,
                   events := acc.events ++ [Event.explosion], rng := pu.2 }
    | none =>
      match acc.ufo with
      | some u =>
        if u.check_collision_bullet b then
          let ex := create_explosion T u.x u.y acc.particles PColor.bright acc.rng
          processBullets T bs
            { acc with ufo := none, score := acc.score + 500,
                       particles := ex.1,
                       events := acc.events ++ [Event.explosion, Event.achievement],
                       rng := ex.2 }
        else
          let res := processBullets T bs acc
          { res with bullets := b :: res.bullets }
      | none =>
        let res := processBullets T bs acc
        { res with bullets := b :: res.bullets }

/-- Phase 7 — wrapper installing `processBullets` over the tick state. -/
def bulletCollisionPhase (T : Trig) (tk : Tick) : Tick :=
  let res := processBullets T tk.gs.bullets
    { bullets := [], asteroids := tk.gs.asteroids, ufo := tk.gs.ufo,
      score := tk.gs.score, particles := tk.gs.particles,
      powerups := tk.gs.powerups, events := tk.events, rng := tk.rng }
  let gs1 := { tk.gs with
    bullets := res.bullets, asteroids := res.asteroids,
    ufo := res.ufo, score := res.score, particles := res.particles,
    powerups := res.powerups }
  { gs := gs1, events := res.events, rng := res.rng }

/-- The replacement ship created after an unshielded hit: freshly centered at
`(WIDTH//2, HEIGHT//2)` with a 120-tick (2-second) invulnerability window. -/
def respawnShip : Ship :=
  { Ship.init 600 450 with invulnerable := true, invulnerable_timer := 120 }

/-- Phase 8 — ship × asteroid: skipped entirely while invulnerable or
shielded; otherwise the first overlapping asteroid costs a life, is removed,
and the ship is replaced by `respawnShip`; at zero lives the session ends. -/
def shipAsteroidPhase (T : Trig) (tk : Tick) : Tick :=
  if tk.gs.ship.invulnerable = false ∧ tk.gs.ship.shield = false then
    match splitFirst (fun a => a.check_collision_ship tk.gs.ship) tk.gs.asteroids with
    | some (pre, _, suf) =>
      let ex := create_explosion T tk.gs.ship.x tk.gs.ship.y tk.gs.particles
        PColor.accent tk.rng
      let lv := tk.gs.lives - 1
      let gs1 := { tk.gs with
        lives := lv, asteroids := pre ++ suf,
        ship := respawnShip, particles := ex.1,
        game_over := if lv ≤ 0 then true else tk.gs.game_over }
      { gs := gs1, events := tk.events ++ [Event.explosion], rng := ex.2 }
    | none => tk
  else tk

/-- Phase 9 — UFO bullet × ship: same guard and outcome, removing the bullet. -/
def ufoBulletShipPhase (T : Trig) (tk : Tick) : Tick :=
  if tk.gs.ship.invulnerable = false ∧ tk.gs.ship.shield = false then
    match splitFirst
        (fun b => collides tk.gs.ship.x tk.gs.ship.y Ship.radius b.x b.y Bullet.radius)
        tk.gs.ufo_bullets with
    | some (pre, _, suf) =>
      let ex := create_explosion T tk.gs.ship.x tk.gs.ship.y tk.gs.particles
        PColor.accent tk.rng
      let lv := tk.gs.lives - 1
      let gs1 := { tk.gs with
        lives := lv, ufo_bullets := pre ++ suf,
        ship := respawnShip, particles := ex.1,
        game_over := if lv ≤ 0 then true else tk.gs.game_over }
      { gs := gs1, events := tk.events ++ [Event.explosion], rng := ex.2 }
    | none => tk
  else tk

/-- Phase 10 — ship × UFO: mutual destruction (two explosion bursts, UFO
removed, ship replaced). -/
def shipUfoPhase (T : Trig) (tk : Tick) : Tick :=
  match tk.gs.ufo with
  | none => tk
  | some u =>
    if tk.gs.ship.invulnerable = false ∧ tk.gs.ship.shield = false ∧
        u.check_collision_ship tk.gs.ship then
      let ex1 := create_explosion T tk.gs.ship.x tk.gs.ship.y tk.gs.particles
        PColor.accent tk.rng
      let ex2 := create_explosion T u.x u.y ex1.1 PColor.bright ex1.2
      let lv := tk.gs.lives - 1
      let gs1 := { tk.gs with
        lives := lv, ufo := none,
        ship := respawnShip, particles := ex2.1,
        game_over := if lv ≤ 0 then true else tk.gs.game_over }
      { gs := gs1, events := tk.events ++ [Event.explosion, Event.explosion],
        rng := ex2.2 }
    else tk

/-- Phase 11 — ship × buff: the first overlapping power-up is consumed and the
matching ship timer is set to its full 300-tick (5-second) duration. -/
def powerupPhase (tk : Tick) : Tick :=
  match splitFirst (fun p => p.check_collision_ship tk.gs.ship) tk.gs.powerups with
  | some (pre, p, suf) =>
    let ship1 :=
      match p.power_type with
      | PType.rapid_fire =>
        { tk.gs.ship with rapid_fire := true, rapid_fire_timer := 300 }
      | PType.shield =>
        { tk.gs.ship with shield := true, shield_timer := 300 }
    { gs := { tk.gs with ship := ship1, powerups := pre ++ suf },
      events := tk.events ++ [Event.buffCollected], rng := tk.rng }
  | none => tk

/-- Phase 12 — new wave once all asteroids are cleared: increment the wave
counter and respawn `spawn_asteroids(4, 'large', wave)` obstacles. -/
def wavePhase (tk : Tick) : Option Tick :=
  if tk.gs.asteroids.isEmpty then
    match spawn_asteroids 4 ASize.large (tk.gs.wave + 1) tk.rng with
    | some (spawned, r1) =>
      some { gs := { tk.gs with wave := tk.gs.wave + 1, asteroids := spawned },
             events := tk.events ++ [Event.levelUp], rng := r1 }
    | none => none
  else some tk

/-- `advance_tick(control_snapshot)`: the whole simulated frame, in the
source's order.  After GameOver the simulation state is left untouched and no
events are produced.  `none` only on entropy exhaustion inside the wave
respawn's rejection loop. -/
def advanceTick (T : Trig) (keys : Keys) (r : List ℚ) (st : GameState) :
    Option (GameState × List Event) :=
  if st.game_over then some (st, [])
  else
    let tk0 : Tick := { gs := st, events := [], rng := r }
    let tk1 := powerupMotionPhase (ufoSpawnPhase (ufoPhase T
      (motionPhase (firePhase T keys (inputPhase T keys tk0)))))
    let tk2 := powerupPhase (shipUfoPhase T (ufoBulletShipPhase T
      (shipAsteroidPhase T (bulletCollisionPhase T tk1))))
    match wavePhase tk2 with
    | some tk3 => some (tk3.gs, tk3.events)
    | none => none

/-- The `K_SPACE` restart handler: a fresh centered ship, a fresh first wave of
`spawn_asteroids(4)` obstacles, all other entity collections cleared, score 0,
lives 3, wave 1, back to Playing.  (The shooting cooldown and UFO spawn timer
are not touched by the handler.) -/
def restart (st : GameState) (r : List ℚ) : Option GameState :=
  match spawn_asteroids 4 ASize.large 1 r with
  | some (spawned, _) =>
    some { st with
      ship := Ship.init 600 450, asteroids := spawned,
      bullets := [], ufo_bullets := [], particles := [], powerups := [],
      ufo := none, score := 0, lives := 3, wave := 1, game_over := false }
  | none => none

/-- A position lying inside the closed world rectangle `[0, W] × [0, H]`. -/
def inRect (x y : ℚ) : Prop := 0 ≤ x ∧ x ≤ WIDTH ∧ 0 ≤ y ∧ y ≤ HEIGHT

/-- The wraparound position invariant over the entity collections that wrap:
the ship, every obstacle, and every player projectile. -/
def wrapInv (gs : GameState) : Prop :=
  inRect gs.ship.x gs.ship.y ∧
  (∀ a ∈ gs.asteroids, inRect a.x a.y) ∧
  (∀ b ∈ gs.bullets, inRect b.x b.y)

instance (x y : ℚ) : Decidable (inRect x y) := by
  unfold inRect; infer_instance

instance (gs : GameState) : Decidable (wrapInv gs) := by
  unfold wrapInv inRect; infer_instance

/-- Concrete pre-state: a ship about to cross the left edge (`x = 0`,
`vx = -2`) together with a live UFO hovering just off the left edge with an
elapsed shoot cooldown. -/
def cexWrapState : GameState :=
  { ship := { Ship.init 0 450 with vx := -2 },
    asteroids := [{ x := 100, y := 100, size := ASize.large, vx := 1, vy := 1,
                    rotation := 0, rotation_rate := 0 }],
    bullets := [], ufo_bullets := [], particles := [], powerups := [],
    ufo := some { x := -20, y := 300, vx := 1, vy := 0, shoot_cooldown := 0 },
    score := 0, lives := 3, wave := 1, game_over := false,
    shoot_cooldown := 0, ufo_spawn_timer := 0 }

/-- The state `advanceTick trigZ Keys.released [] cexWrapState` produces: the
ship has been wrapped to `x = WIDTH` exactly, and the UFO has fired a bullet
from its off-screen position `x = -19`. -/
def cexWrapAfter : GameState :=
  { ship := { Ship.init 1200 450 with vx := -99/50 },
    asteroids := [{ x := 101, y := 101, size := ASize.large, vx := 1, vy := 1,
                    rotation := 0, rotation_rate := 0 }],
    bullets := [],
    ufo_bullets := [{ x := -19, y := 300, vx := 5, vy := 0, lifetime := 60 }],
    particles := [], powerups := [],
    ufo := some { x := -19, y := 300, vx := 1, vy := 0, shoot_cooldown := 90 },
    score := 0, lives := 3, wave := 1, game_over := false,
    shoot_cooldown := 0, ufo_spawn_timer := 1 }

/-- All projectiles in a collection still have ticks to live. -/
def bulletsAlive (bs : List Bullet) : Prop := ∀ b ∈ bs, 0 < b.lifetime

/-- All buffs in a collection still have ticks to live. -/
def powerupsAlive (ps : List PowerUp) : Prop := ∀ p ∈ ps, 0 < p.lifetime

instance (bs : List Bullet) : Decidable (bulletsAlive bs) := by
  unfold bulletsAlive; infer_instance

instance (ps : List PowerUp) : Decidable (powerupsAlive ps) := by
  unfold powerupsAlive; infer_instance

/-- Concrete ship used to exercise the timer rules: rapid fire with 2 ticks
left, shield on its last tick, invulnerability already over, teleport cooling
down. -/
def sTimerEx : Ship :=
  { Ship.init 0 0 with
    rapid_fire := true, rapid_fire_timer := 2,
    shield := true, shield_timer := 1, invulnerable := false,
    invulnerable_timer := 0, hyperspace_cooldown := 5 }

/-- Concrete pre-state for the shielded-ship scenario: lives 3, ship centered
and not invulnerable but carrying an active shield, one large asteroid
overlapping it. -/
def cexShieldState : GameState :=
  { ship := { Ship.init 600 450 with shield := true, shield_timer := 10 },
    asteroids := [{ x := 580, y := 450, size := ASize.large, vx := 1, vy := 1,
                    rotation := 0, rotation_rate := 0 }],
    bullets := [], ufo_bullets := [], particles := [], powerups := [],
    ufo := none, score := 0, lives := 3, wave := 1, game_over := false,
    shoot_cooldown := 0, ufo_spawn_timer := 0 }

/-- Concrete tick state in which an unshielded, vulnerable, centered ship
overlaps one large asteroid. -/
def cexHitTick : Tick :=
  { gs := { ship := Ship.init 600 450,
            asteroids := [{ x := 580, y := 450, size := ASize.large, vx := 1, vy := 1,
                            rotation := 0, rotation_rate := 0 }],
            bullets := [], ufo_bullets := [], particles := [], powerups := [],
            ufo := none, score := 0, lives := 3, wave := 1, game_over := false,
            shoot_cooldown := 0, ufo_spawn_timer := 0 },
    events := [], rng := [] }

/-- Refinement target taken from the spec's words: the size classes of the
fragments a destroyed obstacle is replaced with (to be compared against the
source's `Asteroid.split`). -/
def specChildSizes : ASize → List ASize
  | ASize.large => [ASize.medium, ASize.medium]
  | ASize.medium => [ASize.small, ASize.small]
  | ASize.small => []

/-- Net change in the obstacle count caused by one projectile hit on an
obstacle of the given class. -/
def obstacleDelta : ASize → ℤ
  | ASize.large => 1
  | ASize.medium => 1
  | ASize.small => -1

/-- Size-class histogram (large, medium, small counts) of an obstacle list. -/
def histo (as : List Asteroid) : ℤ × ℤ × ℤ :=
  ((as.countP (fun a => decide (a.size = ASize.large)) : ℤ),
   (as.countP (fun a => decide (a.size = ASize.medium)) : ℤ),
   (as.countP (fun a => decide (a.size = ASize.small)) : ℤ))

/-- Histogram change caused by one projectile hit on an obstacle of the given
class. -/
def histoDelta : ASize → ℤ × ℤ × ℤ
  | ASize.large => (-1, 2, 0)
  | ASize.medium => (0, -1, 2)
  | ASize.small => (0, 0, -1)

/-- Histogram contribution of a single obstacle of the given class. -/
def histoOf : ASize → ℤ × ℤ × ℤ
  | ASize.large => (1, 0, 0)
  | ASize.medium => (0, 1, 0)
  | ASize.small => (0, 0, 1)

/-- A concrete large obstacle. -/
def aSplitEx : Asteroid :=
  { x := 300, y := 300, size := ASize.large, vx := 1, vy := 1,
    rotation := 0, rotation_rate := 0 }

/-- A player projectile dead on `aSplitEx`. -/
def bSplitEx : Bullet := { x := 300, y := 300, vx := 0, vy := 0, lifetime := 60 }

/-- Collision-loop accumulator holding just `aSplitEx`. -/
def cexSplitRes : BulletRes :=
  { bullets := [], asteroids := [aSplitEx],
    ufo := none, score := 0, particles := [], powerups := [],
    events := [], rng := [] }

/-- Every obstacle in the list is of the large class. -/
def allLarge (as : List Asteroid) : Prop := ∀ a ∈ as, a.size = ASize.large

/-- Every obstacle in the list lies outside the 150-wide safe square around
the world center `(WIDTH//2, HEIGHT//2) = (600, 450)`. -/
def outsideSafeZone (as : List Asteroid) : Prop :=
  ∀ a ∈ as, 150 < |a.x - 600| ∨ 150 < |a.y - 450|

instance (as : List Asteroid) : Decidable (allLarge as) := by
  unfold allLarge; infer_instance

instance (as : List Asteroid) : Decidable (outsideSafeZone as) := by
  unfold outsideSafeZone; infer_instance

/-- A wave-1 state whose obstacle collection has just been emptied. -/
def tkWaveEx : Tick :=
  { gs := { ship := Ship.init 600 450, asteroids := [], bullets := [],
            ufo_bullets := [], particles := [], powerups := [], ufo := none,
            score := 240, lives := 3, wave := 1, game_over := false,
            shoot_cooldown := 0, ufo_spawn_timer := 0 },
    events := [], rng := [] }

/-- The tick state the wave director produces from `tkWaveEx` (entropy list
empty, so every draw defaults to 0 and each spawn candidate `(0, 0)` is
accepted at once). -/
def tkWaveExAfter : Tick :=
  { gs := { tkWaveEx.gs with
      wave := 2,
      asteroids := List.replicate 5
        { x := 0, y := 0, size := ASize.large, vx := 1, vy := 1,
          rotation := 0, rotation_rate := 0 } },
    events := [Event.levelUp], rng := [] }

/-- A rate-of-fire buff lying exactly on the world center. -/
def pBuffEx : PowerUp := PowerUp.init 600 450 PType.rapid_fire

/-- A centered ship that already has 50 ticks of rapid fire left, overlapping
`pBuffEx`. -/
def tkBuffEx : Tick :=
  { gs := { ship := { Ship.init 600 450 with rapid_fire := true, rapid_fire_timer := 50 },
            asteroids := [{ x := 100, y := 100, size := ASize.large, vx := 1, vy := 1,
                            rotation := 0, rotation_rate := 0 }],
            bullets := [], ufo_bullets := [], particles := [],
            powerups := [pBuffEx], ufo := none,
            score := 0, lives := 3, wave := 1, game_over := false,
            shoot_cooldown := 0, ufo_spawn_timer := 0 },
    events := [], rng := [] }

/-- Only the teleport control held. -/
def keysTeleport : Keys :=
  { left := false, right := false, up := false, lctrl := false, lshift := true }

/-- Entropy for the teleport counterexample: 90 zero draws feed the first
particle burst, then the relocation draws name the ship's own position
`(600, 450)`. -/
def rngTeleport : List ℚ := List.replicate 90 0 ++ [600, 450]

/-- A centered, motionless ship with the teleport off cooldown. -/
def cexTeleportState : GameState :=
  { ship := Ship.init 600 450,
    asteroids := [{ x := 100, y := 100, size := ASize.large, vx := 1, vy := 1,
                    rotation := 0, rotation_rate := 0 }],
    bullets := [], ufo_bullets := [], particles := [], powerups := [],
    ufo := none, score := 0, lives := 3, wave := 1, game_over := false,
    shoot_cooldown := 0, ufo_spawn_timer := 0 }

/-- A ship used to instantiate the amended teleport statement. -/
def shipTeleEx : Ship := Ship.init 600 450

/-- A terminal (GameOver) session state with leftover entities and counters. -/
def goStateEx : GameState :=
  { ship := { Ship.init 37 88 with vx := 2 },
    asteroids := [], bullets := [], ufo_bullets := [], particles := [],
    powerups := [], ufo := none, score := 777, lives := 0, wave := 5,
    game_over := true, shoot_cooldown := 3, ufo_spawn_timer := 42 }

/-- The state the restart handler produces from `goStateEx` with empty
entropy (four large obstacles at the accepted default draw `(0, 0)`); the
shooting cooldown and UFO spawn timer are left as they were. -/
def resetStateEx : GameState :=
  { goStateEx with
    ship := Ship.init 600 450,
    asteroids := List.replicate 4
      { x := 0, y := 0, size := ASize.large, vx := 1, vy := 1,
        rotation := 0, rotation_rate := 0 },
    bullets := [], ufo_bullets := [], particles := [], powerups := [],
    ufo := none, score := 0, lives := 3, wave := 1, game_over := false }

/-- A vulnerable centered ship with lives 3 overlapping one large obstacle
(the last of its wave). -/
def c10State : GameState :=
  { ship := Ship.init 600 450,
    asteroids := [{ x := 580, y := 450, size := ASize.large, vx := 1, vy := 1,
                    rotation := 0, rotation_rate := 0 }],
    bullets := [], ufo_bullets := [], particles := [], powerups := [],
    ufo := none, score := 0, lives := 3, wave := 1, game_over := false,
    shoot_cooldown := 0, ufo_spawn_timer := 0 }

/-- The state one tick after `c10State`: a single life lost, the ship replaced
by the invulnerable respawn instance, the explosion burst emitted, and — the
destroyed obstacle having been the last — a fresh wave spawned. -/
def c10After : GameState :=
  { ship := respawnShip,
    asteroids := List.replicate 5
      { x := 0, y := 0, size := ASize.large, vx := 1, vy := 1,
        rotation := 0, rotation_rate := 0 },
    bullets := [], ufo_bullets := [],
    particles := List.replicate 30
      { x := 600, y := 450, vx := 2, vy := 0, color_type := PColor.accent,
        lifetime := 40, max_lifetime := 40, size := 2 },
    powerups := [], ufo := none, score := 0, lives := 2, wave := 2,
    game_over := false, shoot_cooldown := 0, ufo_spawn_timer := 1 }

/-! ## Helper lemmas -/

theorem wrapCoord_mem (limit x : ℚ) (h : 0 ≤ limit) :
    0 ≤ wrapCoord limit x ∧ wrapCoord limit x ≤ limit := by
  unfold wrapCoord
  by_cases h1 : x < 0
  · simp [h1, h]
  · by_cases h2 : x > limit
    · simp [h1, h2, h]
    · simp only [if_neg h1, if_neg h2]
      exact ⟨le_of_not_lt h1, le_of_not_lt h2⟩

theorem wrapCoord_of_neg (limit x : ℚ) (h : x < 0) : wrapCoord limit x = limit := by
  simp [wrapCoord, h]

theorem wrapCoord_of_gt (limit x : ℚ) (h0 : 0 ≤ limit) (h : limit < x) :
    wrapCoord limit x = 0 := by
  have h1 : ¬ x < 0 := not_lt.mpr (le_trans h0 (le_of_lt h))
  simp [wrapCoord, h1, h]

theorem splitFirst_eq {α : Type} {p : α → Bool} :
    ∀ {l pre suf : List α} {a : α},
      splitFirst p l = some (pre, a, suf) → l = pre ++ a :: suf := by
  intro l
  induction l with
  | nil => intro pre suf a h; simp [splitFirst] at h
  | cons x xs ih =>
    intro pre suf a h
    unfold splitFirst at h
    by_cases hp : p x
    · rw [if_pos hp] at h
      simp only [Option.some_inj, Prod.mk.injEq] at h
      obtain ⟨h1, h2, h3⟩ := h
      subst h1; subst h2; subst h3
      rfl
    · rw [if_neg hp] at h
      rcases hx : splitFirst p xs with _ | ⟨pre1, y, suf1⟩
      · rw [hx] at h; simp at h
      · rw [hx] at h
        simp only [Option.some_inj, Prod.mk.injEq] at h
        obtain ⟨h1, h2, h3⟩ := h
        subst h1; subst h2; subst h3
        simp [ih hx]

theorem Asteroid.init_x (x y : ℚ) (sz : ASize) (r : List ℚ) :
    (Asteroid.init x y sz r).1.x = x := rfl

theorem Asteroid.init_y (x y : ℚ) (sz : ASize) (r : List ℚ) :
    (Asteroid.init x y sz r).1.y = y := rfl

theorem Asteroid.init_size (x y : ℚ) (sz : ASize) (r : List ℚ) :
    (Asteroid.init x y sz r).1.size = sz := rfl

theorem Asteroid.split_mem {a : Asteroid} {r : List ℚ} {c : Asteroid}
    (h : c ∈ (a.split r).1) : c.x = a.x ∧ c.y = a.y := by
  rcases ha : a.size with _ | _ | _ <;>
      simp only [Asteroid.split, ha, List.mem_cons, List.not_mem_nil, or_false] at h
  · rcases h with h1 | h1 <;> (rw [h1]; exact ⟨rfl, rfl⟩)
  · rcases h with h1 | h1 <;> (rw [h1]; exact ⟨rfl, rfl⟩)

theorem spawnBurst_length (T : Trig) (x y : ℚ) (c : PColor) (lt : ℤ) (lo hi : ℚ) :
    ∀ (n : ℕ) (r : List ℚ), (spawnBurst T x y c lt lo hi n r).1.length = n := by
  intro n
  induction n with
  | zero => intro r; rfl
  | succ m ih => intro r; simp [spawnBurst, ih]

theorem spawnBurst_mem (T : Trig) (x y : ℚ) (c : PColor) (lt : ℤ) (lo hi : ℚ) :
    ∀ (n : ℕ) (r : List ℚ) (q : Particle), q ∈ (spawnBurst T x y c lt lo hi n r).1 →
      q.x = x ∧ q.y = y := by
  intro n
  induction n with
  | zero => intro r q h; cases h
  | succ m ih =>
    intro r q h
    simp only [spawnBurst, List.mem_cons] at h
    rcases h with h | h
    · subst h; exact ⟨rfl, rfl⟩
    · exact ih _ q h

theorem spawnBurst_posMap (T : Trig) (x y : ℚ) (c : PColor) (lt : ℤ) (lo hi : ℚ) :
    ∀ (n : ℕ) (r : List ℚ),
      (spawnBurst T x y c lt lo hi n r).1.map (fun q => (q.x, q.y)) =
        List.replicate n (x, y) := by
  intro n
  induction n with
  | zero => intro r; rfl
  | succ m ih => intro r; simp [spawnBurst, ih, Particle.init, List.replicate_succ]

theorem randintQ_bounds (a b : ℤ) (r : List ℚ) (hab : a ≤ b) :
    a ≤ (randintQ a b r).1 ∧ (randintQ a b r).1 ≤ b := by
  unfold randintQ
  exact ⟨le_max_left _ _, max_le hab (min_le_left _ _)⟩

theorem pickSpawnPos_spec :
    ∀ (n : ℕ) (r : List ℚ) (pos : ℚ × ℚ) (r1 : List ℚ),
      pickSpawnPos n r = some (pos, r1) →
      (0 ≤ pos.1 ∧ pos.1 ≤ 1200 ∧ 0 ≤ pos.2 ∧ pos.2 ≤ 900) ∧
      (150 < |pos.1 - 600| ∨ 150 < |pos.2 - 450|) := by
  intro n
  induction n with
  | zero => intro r pos r1 h; simp [pickSpawnPos] at h
  | succ m ih =>
    intro r pos r1 h
    unfold pickSpawnPos at h
    by_cases hc :
        150 < |((randintQ 0 1200 r).1 : ℚ) - 600| ∨
        150 < |((randintQ 0 900 (randintQ 0 1200 r).2).1 : ℚ) - 450|
    · rw [if_pos hc] at h
      simp only [Option.some_inj, Prod.mk.injEq] at h
      obtain ⟨h1, _⟩ := h
      subst h1
      have hx := randintQ_bounds 0 1200 r (by norm_num)
      have hy := randintQ_bounds 0 900 (randintQ 0 1200 r).2 (by norm_num)
      refine ⟨⟨?_, ?_, ?_, ?_⟩, hc⟩
      · show (0:ℚ) ≤ ((randintQ 0 1200 r).1 : ℚ)
        exact_mod_cast hx.1
      · show ((randintQ 0 1200 r).1 : ℚ) ≤ 1200
        exact_mod_cast hx.2
      · show (0:ℚ) ≤ ((randintQ 0 900 (randintQ 0 1200 r).2).1 : ℚ)
        exact_mod_cast hy.1
      · show ((randintQ 0 900 (randintQ 0 1200 r).2).1 : ℚ) ≤ 900
        exact_mod_cast hy.2
    · rw [if_neg hc] at h
      exact ih _ pos r1 h

set_option maxHeartbeats 1000000 in
theorem spawnLoop_spec (sz : ASize) :
    ∀ (n : ℕ) (r : List ℚ) (out : List Asteroid × List ℚ),
      spawnLoop sz n r = some out →
      out.1.length = n ∧
      ∀ a ∈ out.1, a.size = sz ∧ (0 ≤ a.x ∧ a.x ≤ 1200 ∧ 0 ≤ a.y ∧ a.y ≤ 900) ∧
        (150 < |a.x - 600| ∨ 150 < |a.y - 450|) := by
  intro n
  induction n with
  | zero =>
    intro r out h
    simp only [spawnLoop, Option.some_inj] at h
    subst h
    exact ⟨rfl, by intro a ha; cases ha⟩
  | succ m ih =>
    intro r out h
    unfold spawnLoop at h
    rcases hp : pickSpawnPos spawnFuel r with _ | ⟨pos, r1⟩ <;> rw [hp] at h
    · simp at h
    · dsimp only at h
      rcases hs : spawnLoop sz m (Asteroid.init pos.1 pos.2 sz r1).2 with _ | ⟨rest, r2⟩ <;>
        rw [hs] at h
      · simp at h
      · dsimp only at h
        simp only [Option.some_inj] at h
        subst h
        obtain ⟨hlen, hall⟩ := ih _ _ hs
        refine ⟨by simp [hlen], ?_⟩
        intro a ha
        rcases List.mem_cons.mp ha with h0 | h0
        · subst h0
          have hps := pickSpawnPos_spec spawnFuel r pos r1 hp
          exact ⟨rfl, hps.1, hps.2⟩
        · exact hall a h0

/-! ## Phase bookkeeping lemmas -/

theorem inputPhase_fields (T : Trig) (keys : Keys) (tk : Tick) :
    (inputPhase T keys tk).gs.asteroids = tk.gs.asteroids ∧
    (inputPhase T keys tk).gs.bullets = tk.gs.bullets ∧
    (inputPhase T keys tk).gs.lives = tk.gs.lives :=
  ⟨rfl, rfl, rfl⟩

theorem firePhase_fields (T : Trig) (keys : Keys) (tk : Tick) :
    (firePhase T keys tk).gs.asteroids = tk.gs.asteroids ∧
    (firePhase T keys tk).gs.ship = tk.gs.ship ∧
    (firePhase T keys tk).gs.lives = tk.gs.lives := by
  unfold firePhase
  dsimp only
  split <;> exact ⟨rfl, rfl, rfl⟩

theorem motionPhase_fields (tk : Tick) :
    (motionPhase tk).gs.powerups = tk.gs.powerups ∧
    (motionPhase tk).gs.lives = tk.gs.lives ∧
    (motionPhase tk).gs.ufo = tk.gs.ufo :=
  ⟨rfl, rfl, rfl⟩

theorem ufoPhase_fields (T : Trig) (tk : Tick) :
    (ufoPhase T tk).gs.ship = tk.gs.ship ∧
    (ufoPhase T tk).gs.asteroids = tk.gs.asteroids ∧
    (ufoPhase T tk).gs.bullets = tk.gs.bullets ∧
    (ufoPhase T tk).gs.lives = tk.gs.lives := by
  unfold ufoPhase
  rcases tk.gs.ufo with _ | u
  · exact ⟨rfl, rfl, rfl, rfl⟩
  · exact ⟨rfl, rfl, rfl, rfl⟩

theorem ufoSpawnPhase_fields (tk : Tick) :
    (ufoSpawnPhase tk).gs.ship = tk.gs.ship ∧
    (ufoSpawnPhase tk).gs.asteroids = tk.gs.asteroids ∧
    (ufoSpawnPhase tk).gs.bullets = tk.gs.bullets ∧
    (ufoSpawnPhase tk).gs.lives = tk.gs.lives := by
  unfold ufoSpawnPhase
  dsimp only
  split <;> exact ⟨rfl, rfl, rfl, rfl⟩

theorem powerupMotionPhase_fields (tk : Tick) :
    (powerupMotionPhase tk).gs.ship = tk.gs.ship ∧
    (powerupMotionPhase tk).gs.asteroids = tk.gs.asteroids ∧
    (powerupMotionPhase tk).gs.bullets = tk.gs.bullets ∧
    (powerupMotionPhase tk).gs.lives = tk.gs.lives :=
  ⟨rfl, rfl, rfl, rfl⟩

theorem bulletCollisionPhase_fields (T : Trig) (tk : Tick) :
    (bulletCollisionPhase T tk).gs.ship = tk.gs.ship ∧
    (bulletCollisionPhase T tk).gs.lives = tk.gs.lives ∧
    (bulletCollisionPhase T tk).gs.ufo_bullets = tk.gs.ufo_bullets :=
  ⟨rfl, rfl, rfl⟩

theorem powerupPhase_fields (tk : Tick) :
    (powerupPhase tk).gs.ship.x = tk.gs.ship.x ∧
    (powerupPhase tk).gs.ship.y = tk.gs.ship.y ∧
    (powerupPhase tk).gs.ship.invulnerable = tk.gs.ship.invulnerable ∧
    (powerupPhase tk).gs.asteroids = tk.gs.asteroids ∧
    (powerupPhase tk).gs.bullets = tk.gs.bullets ∧
    (powerupPhase tk).gs.lives = tk.gs.lives := by
  unfold powerupPhase
  rcases hsf : splitFirst (fun p => p.check_collision_ship tk.gs.ship) tk.gs.powerups with
    _ | ⟨pre, p, suf⟩ <;> rw [hsf]
  · exact ⟨rfl, rfl, rfl, rfl, rfl, rfl⟩
  · dsimp only
    rcases p.power_type with _ | _ <;> exact ⟨rfl, rfl, rfl, rfl, rfl, rfl⟩

theorem wavePhase_fields (tk tk' : Tick) (h : wavePhase tk = some tk') :
    tk'.gs.ship = tk.gs.ship ∧ tk'.gs.bullets = tk.gs.bullets ∧
    tk'.gs.lives = tk.gs.lives := by
  unfold wavePhase at h
  by_cases he : tk.gs.asteroids.isEmpty
  · rw [if_pos he] at h
    rcases hsp : spawn_asteroids 4 ASize.large (tk.gs.wave + 1) tk.rng with _ | ⟨spawned, r1⟩ <;>
      rw [hsp] at h
    · simp at h
    · dsimp only at h
      simp only [Option.some_inj] at h
      subst h
      exact ⟨rfl, rfl, rfl⟩
  · rw [if_neg he] at h
    simp only [Option.some_inj] at h
    subst h
    exact ⟨rfl, rfl, rfl⟩

/-! ## Wrap-invariant transport through the phases -/

theorem motionPhase_wrapInv (tk : Tick) : wrapInv (motionPhase tk).gs := by
  have hW : (0:ℚ) ≤ WIDTH := by norm_num [WIDTH]
  have hH : (0:ℚ) ≤ HEIGHT := by norm_num [HEIGHT]
  unfold motionPhase wrapInv
  dsimp only
  refine ⟨?_, ?_, ?_⟩
  · show inRect (Ship.update tk.gs.ship).x (Ship.update tk.gs.ship).y
    unfold Ship.update inRect
    dsimp only
    exact ⟨(wrapCoord_mem _ _ hW).1, (wrapCoord_mem _ _ hW).2,
      (wrapCoord_mem _ _ hH).1, (wrapCoord_mem _ _ hH).2⟩
  · intro a ha
    obtain ⟨b, _, rfl⟩ := List.mem_map.mp ha
    unfold Asteroid.update inRect
    dsimp only
    exact ⟨(wrapCoord_mem _ _ hW).1, (wrapCoord_mem _ _ hW).2,
      (wrapCoord_mem _ _ hH).1, (wrapCoord_mem _ _ hH).2⟩
  · intro b hb
    unfold tickBullets at hb
    obtain ⟨b0, _, rfl⟩ := List.mem_map.mp (List.mem_of_mem_filter hb)
    unfold Bullet.update inRect
    dsimp only
    exact ⟨(wrapCoord_mem _ _ hW).1, (wrapCoord_mem _ _ hW).2,
      (wrapCoord_mem _ _ hH).1, (wrapCoord_mem _ _ hH).2⟩

theorem ufoPhase_wrapInv (T : Trig) (tk : Tick) (h : wrapInv tk.gs) :
    wrapInv (ufoPhase T tk).gs := by
  obtain ⟨f1, f2, f3, _⟩ := ufoPhase_fields T tk
  unfold wrapInv
  rw [f1, f2, f3]
  exact h

theorem ufoSpawnPhase_wrapInv (tk : Tick) (h : wrapInv tk.gs) :
    wrapInv (ufoSpawnPhase tk).gs := by
  obtain ⟨f1, f2, f3, _⟩ := ufoSpawnPhase_fields tk
  unfold wrapInv
  rw [f1, f2, f3]
  exact h

theorem powerupMotionPhase_wrapInv (tk : Tick) (h : wrapInv tk.gs) :
    wrapInv (powerupMotionPhase tk).gs := by
  obtain ⟨f1, f2, f3, _⟩ := powerupMotionPhase_fields tk
  unfold wrapInv
  rw [f1, f2, f3]
  exact h

set_option maxHeartbeats 1000000 in
theorem processBullets_inRect (T : Trig) :
    ∀ (bs : List Bullet) (acc : BulletRes),
      (∀ a ∈ acc.asteroids, inRect a.x a.y) →
      (∀ b ∈ acc.bullets, inRect b.x b.y) →
      (∀ b ∈ bs, inRect b.x b.y) →
      (∀ a ∈ (processBullets T bs acc).asteroids, inRect a.x a.y) ∧
      (∀ b ∈ (processBullets T bs acc).bullets, inRect b.x b.y) := by
  intro bs
  induction bs with
  | nil => intro acc h1 h2 _; exact ⟨h1, h2⟩
  | cons b bs ih =>
    intro acc h1 h2 h3
    unfold processBullets
    rcases hsf : splitFirst (fun a => a.check_collision_bullet b) acc.asteroids with
      _ | ⟨pre, a, suf⟩ <;> rw [hsf]
    · rcases hu : acc.ufo with _ | u
      · dsimp only
        have := ih acc h1 h2 (fun b0 hb0 => h3 b0 (List.mem_cons_of_mem b hb0))
        refine ⟨this.1, ?_⟩
        intro b0 hb0
        rcases List.mem_cons.mp hb0 with h0 | h0
        · subst h0; exact h3 b0 (List.mem_cons_self b0 bs)
        · exact this.2 b0 h0
      · dsimp only
        split
        · refine ih _ ?_ ?_ ?_
          · exact h1
          · exact h2
          · exact fun b0 hb0 => h3 b0 (List.mem_cons_of_mem b hb0)
        · dsimp only
          have := ih acc h1 h2 (fun b0 hb0 => h3 b0 (List.mem_cons_of_mem b hb0))
          refine ⟨this.1, ?_⟩
          intro b0 hb0
          rcases List.mem_cons.mp hb0 with h0 | h0
          · subst h0; exact h3 b0 (List.mem_cons_self b0 bs)
          · exact this.2 b0 h0
    · dsimp only
      have hmem : a ∈ acc.asteroids := by
        rw [splitFirst_eq hsf]
        exact List.mem_append.mpr (Or.inr (List.mem_cons_self a suf))
      refine ih _ ?_ h2 (fun b0 hb0 => h3 b0 (List.mem_cons_of_mem b hb0))
      intro a0 ha0
      rcases List.mem_append.mp ha0 with h0 | h0
      · rcases List.mem_append.mp h0 with h0a | h0a
        · exact h1 a0 (by rw [splitFirst_eq hsf]; exact List.mem_append.mpr (Or.inl h0a))
        · exact h1 a0 (by
            rw [splitFirst_eq hsf]
            exact List.mem_append.mpr (Or.inr (List.mem_cons_of_mem a h0a)))
      · obtain ⟨hx, hy⟩ := Asteroid.split_mem h0
        have := h1 a hmem
        unfold inRect at this ⊢
        rw [hx, hy]
        exact this

theorem bulletCollisionPhase_wrapInv (T : Trig) (tk : Tick) (h : wrapInv tk.gs) :
    wrapInv (bulletCollisionPhase T tk).gs := by
  obtain ⟨hs, ha, hb⟩ := h
  have hp := processBullets_inRect T tk.gs.bullets
    { bullets := [], asteroids := tk.gs.asteroids, ufo := tk.gs.ufo,
      score := tk.gs.score, particles := tk.gs.particles,
      powerups := tk.gs.powerups, events := tk.events, rng := tk.rng }
    ha (by intro b hb0; cases hb0) hb
  exact ⟨hs, hp.1, hp.2⟩

theorem shipAsteroidPhase_wrapInv (T : Trig) (tk : Tick) (h : wrapInv tk.gs) :
    wrapInv (shipAsteroidPhase T tk).gs := by
  obtain ⟨hs, ha, hb⟩ := h
  unfold shipAsteroidPhase
  split
  · rcases hsf : splitFirst (fun a => a.check_collision_ship tk.gs.ship) tk.gs.asteroids with
      _ | ⟨pre, a, suf⟩ <;> rw [hsf]
    · exact ⟨hs, ha, hb⟩
    · dsimp only
      refine ⟨by norm_num [respawnShip, Ship.init, inRect, WIDTH, HEIGHT], ?_, hb⟩
      intro a0 ha0
      rcases List.mem_append.mp ha0 with h0 | h0
      · exact ha a0 (by rw [splitFirst_eq hsf]; exact List.mem_append.mpr (Or.inl h0))
      · exact ha a0 (by
          rw [splitFirst_eq hsf]
          exact List.mem_append.mpr (Or.inr (List.mem_cons_of_mem a h0)))
  · exact ⟨hs, ha, hb⟩

theorem ufoBulletShipPhase_wrapInv (T : Trig) (tk : Tick) (h : wrapInv tk.gs) :
    wrapInv (ufoBulletShipPhase T tk).gs := by
  obtain ⟨hs, ha, hb⟩ := h
  unfold ufoBulletShipPhase
  split
  · rcases hsf : splitFirst
        (fun b => collides tk.gs.ship.x tk.gs.ship.y Ship.radius b.x b.y Bullet.radius)
        tk.gs.ufo_bullets with _ | ⟨pre, a, suf⟩ <;> rw [hsf]
    · exact ⟨hs, ha, hb⟩
    · exact ⟨by norm_num [respawnShip, Ship.init, inRect, WIDTH, HEIGHT], ha, hb⟩
  · exact ⟨hs, ha, hb⟩

theorem shipUfoPhase_wrapInv (T : Trig) (tk : Tick) (h : wrapInv tk.gs) :
    wrapInv (shipUfoPhase T tk).gs := by
  obtain ⟨hs, ha, hb⟩ := h
  unfold shipUfoPhase
  rcases hu : tk.gs.ufo with _ | u
  · exact ⟨hs, ha, hb⟩
  · dsimp only
    split
    · exact ⟨by norm_num [respawnShip, Ship.init, inRect, WIDTH, HEIGHT], ha, hb⟩
    · exact ⟨hs, ha, hb⟩

theorem powerupPhase_wrapInv (tk : Tick) (h : wrapInv tk.gs) :
    wrapInv (powerupPhase tk).gs := by
  obtain ⟨f1, f2, _, f4, f5, _⟩ := powerupPhase_fields tk
  unfold wrapInv inRect
  rw [f1, f2, f4, f5]
  exact h

theorem wavePhase_wrapInv (tk tk' : Tick) (h : wrapInv tk.gs)
    (hw : wavePhase tk = some tk') : wrapInv tk'.gs := by
  obtain ⟨hs, ha, hb⟩ := h
  unfold wavePhase at hw
  by_cases he : tk.gs.asteroids.isEmpty
  · rw [if_pos he] at hw
    rcases hsp : spawn_asteroids 4 ASize.large (tk.gs.wave + 1) tk.rng with _ | ⟨spawned, r1⟩ <;>
      rw [hsp] at hw
    · simp at hw
    · dsimp only at hw
      simp only [Option.some_inj] at hw
      subst hw
      refine ⟨hs, ?_, hb⟩
      intro a ha0
      have := (spawnLoop_spec ASize.large _ _ _ hsp).2 a ha0
      unfold inRect
      exact ⟨this.2.1.1, this.2.1.2.1, this.2.1.2.2.1, this.2.1.2.2.2⟩
  · rw [if_neg he] at hw
    simp only [Option.some_inj] at hw
    subst hw
    exact ⟨hs, ha, hb⟩

/-! ## C1 — wraparound invariant -/

/-- C1 (counterexample): the claimed invariant `0 ≤ x < W ∧ 0 ≤ y < H` after
`advance_tick` is false on the code.  From `cexWrapState`, one tick wraps the
ship leaving the left edge to `x = WIDTH` exactly (the boundary value, which
violates `x < W`), and the off-screen UFO fires a hunter projectile created at
`x = -19`, violating `0 ≤ x`. -/
theorem wrap_invariant_counterexample :
    advanceTick trigZ Keys.released [] cexWrapState =
      some (cexWrapAfter, [Event.ufoLaser]) ∧
    cexWrapAfter.ship.x = WIDTH ∧ ¬ cexWrapAfter.ship.x < WIDTH ∧
    cexWrapAfter.ufo_bullets.map (fun b => (b.x, b.y)) = [(-19, 300)] ∧
    ¬ (0:ℚ) ≤ -19 :=
  ⟨by decide, by decide, by decide, by decide, by decide⟩

/-- C1 (amended): after `advance_tick` from a live (non-GameOver) state, the
ship, every obstacle, and every player projectile lie in the closed rectangle
`0 ≤ x ≤ W ∧ 0 ≤ y ≤ H`; every projectile (hunter projectiles included)
satisfies the same bounds after each motion update, though a hunter projectile
fired this tick starts at the hunter's possibly off-screen position; wrapping
re-enters an exiting entity at the opposite edge's boundary value (`W` for
`x < 0`, `0` for `x > W`), not modulo-reflected. -/
theorem wrap_invariant_amended (T : Trig) (keys : Keys) (r : List ℚ)
    (st st' : GameState) (ev : List Event) (b : Bullet) (xneg xbig : ℚ)
    (h0 : st.game_over = false) (h : advanceTick T keys r st = some (st', ev))
    (hneg : xneg < 0) (hbig : WIDTH < xbig) :
    wrapInv st' ∧ inRect (Bullet.update b).x (Bullet.update b).y ∧
    wrapCoord WIDTH xneg = WIDTH ∧ wrapCoord WIDTH xbig = 0 := by
  have hW : (0:ℚ) ≤ WIDTH := by norm_num [WIDTH]
  have hH : (0:ℚ) ≤ HEIGHT := by norm_num [HEIGHT]
  refine ⟨?_, ?_, wrapCoord_of_neg _ _ hneg, wrapCoord_of_gt _ _ hW hbig⟩
  · unfold advanceTick at h
    rw [if_neg (by simp [h0] : ¬ st.game_over = true)] at h
    dsimp only at h
    set tkA := powerupPhase (shipUfoPhase T (ufoBulletShipPhase T (shipAsteroidPhase T
      (bulletCollisionPhase T (powerupMotionPhase (ufoSpawnPhase (ufoPhase T
        (motionPhase (firePhase T keys (inputPhase T keys ⟨st, [], r⟩)))))))))) with htkA
    have hinv : wrapInv tkA.gs := by
      rw [htkA]
      exact powerupPhase_wrapInv _ (shipUfoPhase_wrapInv _ _ (ufoBulletShipPhase_wrapInv _ _
        (shipAsteroidPhase_wrapInv _ _ (bulletCollisionPhase_wrapInv _ _
          (powerupMotionPhase_wrapInv _ (ufoSpawnPhase_wrapInv _
            (ufoPhase_wrapInv _ _ (motionPhase_wrapInv _))))))))
    rcases hw : wavePhase tkA with _ | tk3 <;> rw [hw] at h
    · simp at h
    · dsimp only at h
      simp only [Option.some_inj, Prod.mk.injEq] at h
      obtain ⟨h1, _⟩ := h
      subst h1
      exact wavePhase_wrapInv tkA tk3 hinv hw
  · unfold Bullet.update inRect
    dsimp only
    exact ⟨(wrapCoord_mem _ _ hW).1, (wrapCoord_mem _ _ hW).2,
      (wrapCoord_mem _ _ hH).1, (wrapCoord_mem _ _ hH).2⟩

/-- C1 (witness): the amended invariant evaluated on a concrete run — the same
run as the counterexample, whose final ship position is exactly `(W, 450)`. -/
theorem wrap_invariant_amended_witness :
    wrapInv cexWrapAfter ∧
    inRect (Bullet.update { x := 0, y := 0, vx := -3, vy := 950, lifetime := 60 }).x
      (Bullet.update { x := 0, y := 0, vx := -3, vy := 950, lifetime := 60 }).y ∧
    wrapCoord WIDTH (-1) = WIDTH ∧ wrapCoord WIDTH 1300 = 0 :=
  wrap_invariant_amended trigZ Keys.released [] cexWrapState cexWrapAfter
    [Event.ufoLaser] { x := 0, y := 0, vx := -3, vy := 950, lifetime := 60 }
    (-1) 1300 (by decide) (by decide) (by decide) (by decide)

/-! ## C2 — countdown timers -/

/-- C2: each ship countdown timer (rapid-fire, shield, invulnerability,
teleport cooldown) decreases by exactly 1 per tick while positive and is
clamped at 0 (`max (t-1) 0`), never going negative; the matching boolean flag
is cleared exactly on the tick its timer reaches 0 (i.e. when it was 1);
projectile and buff lifetimes decrease by exactly 1 per tick, and after the
update-and-retire pass every live projectile/buff lifetime is still positive,
so no live entity ever carries a negative lifetime. -/
theorem timer_countdowns (s : Ship) (bs : List Bullet) (ps : List PowerUp)
    (b : Bullet) (p : PowerUp)
    (h1 : 0 ≤ s.rapid_fire_timer) (h2 : 0 ≤ s.shield_timer)
    (h3 : 0 ≤ s.invulnerable_timer) (h4 : 0 ≤ s.hyperspace_cooldown) :
    (Ship.update s).rapid_fire_timer = max (s.rapid_fire_timer - 1) 0 ∧
    (Ship.update s).shield_timer = max (s.shield_timer - 1) 0 ∧
    (Ship.update s).invulnerable_timer = max (s.invulnerable_timer - 1) 0 ∧
    (Ship.update s).hyperspace_cooldown = max (s.hyperspace_cooldown - 1) 0 ∧
    0 ≤ (Ship.update s).rapid_fire_timer ∧
    0 ≤ (Ship.update s).shield_timer ∧
    0 ≤ (Ship.update s).invulnerable_timer ∧
    0 ≤ (Ship.update s).hyperspace_cooldown ∧
    (Ship.update s).rapid_fire =
      (if s.rapid_fire_timer = 1 then false else s.rapid_fire) ∧
    (Ship.update s).shield = (if s.shield_timer = 1 then false else s.shield) ∧
    (Ship.update s).invulnerable =
      (if s.invulnerable_timer = 1 then false else s.invulnerable) ∧
    (Bullet.update b).lifetime = b.lifetime - 1 ∧
    (PowerUp.update p).lifetime = p.lifetime - 1 ∧
    bulletsAlive (tickBullets bs) ∧
    powerupsAlive (tickPowerups ps) := by
  unfold Ship.update
  dsimp only
  refine ⟨?_, ?_, ?_, ?_, ?_, ?_, ?_, ?_, ?_, ?_, ?_, rfl, rfl, ?_, ?_⟩
  · split_ifs <;> omega
  · split_ifs <;> omega
  · split_ifs <;> omega
  · split_ifs <;> omega
  · split_ifs <;> omega
  · split_ifs <;> omega
  · split_ifs <;> omega
  · split_ifs <;> omega
  · split_ifs <;> first | rfl | omega
  · split_ifs <;> first | rfl | omega
  · split_ifs <;> first | rfl | omega
  · intro b0 hb0
    have hf := (List.mem_filter.mp hb0).2
    simp only [Bullet.is_expired, Bool.not_eq_true'] at hf
    simp only [decide_eq_false_iff_not, not_le] at hf
    exact hf
  · intro p0 hp0
    have hf := (List.mem_filter.mp hp0).2
    simp only [PowerUp.is_expired, Bool.not_eq_true'] at hf
    simp only [decide_eq_false_iff_not, not_le] at hf
    exact hf

/-- C2 (witness): the timer rules evaluated on `sTimerEx` (rapid-fire timer
2 → 1 with the flag kept, shield timer 1 → 0 with the flag cleared,
invulnerability timer staying 0, cooldown 5 → 4) and concrete projectile/buff
collections. -/
theorem timer_countdowns_witness :
    (Ship.update sTimerEx).rapid_fire_timer = max (sTimerEx.rapid_fire_timer - 1) 0 ∧
    (Ship.update sTimerEx).shield_timer = max (sTimerEx.shield_timer - 1) 0 ∧
    (Ship.update sTimerEx).invulnerable_timer = max (sTimerEx.invulnerable_timer - 1) 0 ∧
    (Ship.update sTimerEx).hyperspace_cooldown = max (sTimerEx.hyperspace_cooldown - 1) 0 ∧
    0 ≤ (Ship.update sTimerEx).rapid_fire_timer ∧
    0 ≤ (Ship.update sTimerEx).shield_timer ∧
    0 ≤ (Ship.update sTimerEx).invulnerable_timer ∧
    0 ≤ (Ship.update sTimerEx).hyperspace_cooldown ∧
    (Ship.update sTimerEx).rapid_fire =
      (if sTimerEx.rapid_fire_timer = 1 then false else sTimerEx.rapid_fire) ∧
    (Ship.update sTimerEx).shield =
      (if sTimerEx.shield_timer = 1 then false else sTimerEx.shield) ∧
    (Ship.update sTimerEx).invulnerable =
      (if sTimerEx.invulnerable_timer = 1 then false else sTimerEx.invulnerable) ∧
    (Bullet.update { x := 0, y := 0, vx := 1, vy := 1, lifetime := 60 }).lifetime =
      ({ x := 0, y := 0, vx := 1, vy := 1, lifetime := 60 } : Bullet).lifetime - 1 ∧
    (PowerUp.update (PowerUp.init 3 4 PType.shield)).lifetime =
      (PowerUp.init 3 4 PType.shield).lifetime - 1 ∧
    bulletsAlive (tickBullets [{ x := 0, y := 0, vx := 1, vy := 1, lifetime := 60 },
      { x := 5, y := 5, vx := 0, vy := 0, lifetime := 1 }]) ∧
    powerupsAlive (tickPowerups [PowerUp.init 3 4 PType.shield]) :=
  timer_countdowns sTimerEx
    [{ x := 0, y := 0, vx := 1, vy := 1, lifetime := 60 },
     { x := 5, y := 5, vx := 0, vy := 0, lifetime := 1 }]
    [PowerUp.init 3 4 PType.shield]
    { x := 0, y := 0, vx := 1, vy := 1, lifetime := 60 }
    (PowerUp.init 3 4 PType.shield)
    (by decide) (by decide) (by decide) (by decide)

/-! ## C3 — ship–obstacle hit -/

/-- C3 (counterexample): the claim as stated is false — overlapping an
obstacle "while not invulnerable" does not suffice, because the collision pass
is also skipped while the shield buff is active.  In `cexShieldState` the ship
has lives 3, is not invulnerable, and overlaps an obstacle, yet after one tick
lives are still 3, the obstacle is still present, and the ship was neither
moved to the center as a fresh instance nor made invulnerable. -/
theorem ship_hit_shield_counterexample :
    cexShieldState.lives = 3 ∧ cexShieldState.ship.invulnerable = false ∧
    (cexShieldState.asteroids.head?.map
      (fun a => a.check_collision_ship cexShieldState.ship)) = some true ∧
    (advanceTick trigZ Keys.released [] cexShieldState).map
      (fun q => (q.1.lives, q.1.asteroids.length, q.1.ship.x, q.1.ship.y,
                 q.1.ship.invulnerable)) = some (3, 1, 600, 450, false) :=
  ⟨by decide, by decide, by decide, by decide⟩

/-- C3 (amended): when a ship with lives 3 overlaps an obstacle while neither
invulnerable nor shielded, the ship–obstacle collision pass of that tick sets
lives to 2, replaces the ship wholesale with the fresh centered instance
(position `(600, 450) = (W/2, H/2)`, invulnerable with a 120-tick = 2-second
timer), and removes the offending obstacle from the obstacle collection. -/
theorem ship_asteroid_hit_amended (T : Trig) (tk : Tick)
    (pre suf : List Asteroid) (a : Asteroid)
    (hinv : tk.gs.ship.invulnerable = false) (hsh : tk.gs.ship.shield = false)
    (hl : tk.gs.lives = 3)
    (hsf : splitFirst (fun a => a.check_collision_ship tk.gs.ship) tk.gs.asteroids
      = some (pre, a, suf)) :
    (shipAsteroidPhase T tk).gs.lives = 2 ∧
    (shipAsteroidPhase T tk).gs.ship = respawnShip ∧
    respawnShip.x = 600 ∧ respawnShip.y = 450 ∧
    respawnShip.invulnerable = true ∧ respawnShip.invulnerable_timer = 120 ∧
    (shipAsteroidPhase T tk).gs.asteroids = pre ++ suf ∧
    tk.gs.asteroids = pre ++ a :: suf := by
  unfold shipAsteroidPhase
  rw [if_pos ⟨hinv, hsh⟩, hsf]
  dsimp only
  exact ⟨by rw [hl]; decide, rfl, rfl, rfl, rfl, rfl, rfl, splitFirst_eq hsf⟩

/-- C3 (witness): the amended statement evaluated on `cexHitTick`, whose single
obstacle overlaps the vulnerable centered ship. -/
theorem ship_asteroid_hit_amended_witness :
    (shipAsteroidPhase trigZ cexHitTick).gs.lives = 2 ∧
    (shipAsteroidPhase trigZ cexHitTick).gs.ship = respawnShip ∧
    respawnShip.x = 600 ∧ respawnShip.y = 450 ∧
    respawnShip.invulnerable = true ∧ respawnShip.invulnerable_timer = 120 ∧
    (shipAsteroidPhase trigZ cexHitTick).gs.asteroids = [] ++ [] ∧
    cexHitTick.gs.asteroids = [] ++
      { x := 580, y := 450, size := ASize.large, vx := 1, vy := 1,
        rotation := 0, rotation_rate := 0 } :: [] :=
  ship_asteroid_hit_amended trigZ cexHitTick [] []
    { x := 580, y := 450, size := ASize.large, vx := 1, vy := 1,
      rotation := 0, rotation_rate := 0 }
    (by decide) (by decide) (by decide) (by decide)

theorem histo_append (l1 l2 : List Asteroid) :
    histo (l1 ++ l2) = histo l1 + histo l2 := by
  simp [histo, List.countP_append, Prod.ext_iff]

theorem histo_cons (a : Asteroid) (l : List Asteroid) :
    histo (a :: l) = histoOf a.size + histo l := by
  rcases ha : a.size with _ | _ | _ <;>
    simp [histo, histoOf, List.countP_cons, ha, Prod.ext_iff] <;> omega

theorem histo_split (a : Asteroid) (r : List ℚ) :
    histo (a.split r).1 = histoDelta a.size + histoOf a.size := by
  rcases ha : a.size with _ | _ | _ <;>
    simp [Asteroid.split, ha, histo, histoDelta, histoOf, List.countP_cons,
      Asteroid.init_size, Prod.ext_iff]

/-! ## C4 — split conservation -/

/-- C4: destroying a large obstacle replaces it with exactly two medium
obstacles at its position, a medium one with exactly two small ones, a small
one with nothing; hence each player-projectile hit consumes the projectile and
changes the obstacle count by `obstacleDelta` (+1 for large/medium, −1 for
small) with the corresponding size-class histogram change `histoDelta`. -/
theorem split_conservation (T : Trig) (a : Asteroid) (r : List ℚ)
    (acc : BulletRes) (b : Bullet) (pre suf : List Asteroid)
    (hsf : splitFirst (fun x => x.check_collision_bullet b) acc.asteroids
      = some (pre, a, suf)) :
    (a.split r).1.map Asteroid.size = specChildSizes a.size ∧
    (a.split r).1.map (fun c => (c.x, c.y)) =
      (specChildSizes a.size).map (fun _ => (a.x, a.y)) ∧
    ((processBullets T [b] acc).asteroids.length : ℤ) =
      acc.asteroids.length + obstacleDelta a.size ∧
    histo (processBullets T [b] acc).asteroids = histo acc.asteroids + histoDelta a.size ∧
    (processBullets T [b] acc).bullets = acc.bullets := by
  have heq := splitFirst_eq hsf
  have hsplit : (processBullets T [b] acc).asteroids =
      pre ++ suf ++ (a.split (create_explosion T a.x a.y acc.particles
        PColor.accent acc.rng).2).1 ∧
      (processBullets T [b] acc).bullets = acc.bullets := by
    unfold processBullets
    rw [hsf]
    dsimp only
    unfold processBullets
    exact ⟨rfl, rfl⟩
  refine ⟨?_, ?_, ?_, ?_, hsplit.2⟩
  · rcases ha : a.size with _ | _ | _ <;>
      simp [Asteroid.split, ha, specChildSizes, Asteroid.init]
  · rcases ha : a.size with _ | _ | _ <;>
      simp [Asteroid.split, ha, specChildSizes, Asteroid.init]
  · rw [hsplit.1, heq]
    rcases ha : a.size with _ | _ | _ <;>
      simp [Asteroid.split, ha, obstacleDelta, List.length_append] <;> ring
  · rw [hsplit.1, heq, histo_append, histo_append, histo_append, histo_cons,
      histo_split]
    abel

/-- C4 (witness): the split-conservation facts evaluated on a concrete large
obstacle hit by a concrete projectile. -/
theorem split_conservation_witness :
    (aSplitEx.split []).1.map Asteroid.size = specChildSizes aSplitEx.size ∧
    (aSplitEx.split []).1.map (fun c => (c.x, c.y)) =
      (specChildSizes aSplitEx.size).map (fun _ => (aSplitEx.x, aSplitEx.y)) ∧
    ((processBullets trigZ [bSplitEx] cexSplitRes).asteroids.length : ℤ) =
      cexSplitRes.asteroids.length + obstacleDelta aSplitEx.size ∧
    histo (processBullets trigZ [bSplitEx] cexSplitRes).asteroids =
      histo cexSplitRes.asteroids + histoDelta aSplitEx.size ∧
    (processBullets trigZ [bSplitEx] cexSplitRes).bullets = cexSplitRes.bullets :=
  split_conservation trigZ aSplitEx [] cexSplitRes bSplitEx [] [] (by decide)

/-! ## C5 — wave respawn -/

/-- C5: when the obstacle collection has become empty during wave `N ≥ 1`, the
wave director increments the wave counter to `N + 1` and repopulates the
collection with exactly `4 + N` large obstacles, every one of them outside the
fixed safe square around the world center (candidate positions inside it are
rejected and redrawn). -/
theorem wave_respawn (tk tk' : Tick) (hN : 1 ≤ tk.gs.wave)
    (he : tk.gs.asteroids = []) (hw : wavePhase tk = some tk') :
    tk'.gs.wave = tk.gs.wave + 1 ∧
    (tk'.gs.asteroids.length : ℤ) = 4 + tk.gs.wave ∧
    allLarge tk'.gs.asteroids ∧
    outsideSafeZone tk'.gs.asteroids := by
  unfold wavePhase at hw
  rw [he] at hw
  rw [if_pos List.isEmpty_nil] at hw
  rcases hsp : spawn_asteroids 4 ASize.large (tk.gs.wave + 1) tk.rng with _ | ⟨spawned, r1⟩ <;>
    rw [hsp] at hw
  · simp at hw
  · dsimp only at hw
    simp only [Option.some_inj] at hw
    subst hw
    unfold spawn_asteroids at hsp
    have hs := spawnLoop_spec ASize.large _ _ _ hsp
    refine ⟨rfl, ?_, ?_, ?_⟩
    · show (spawned.length : ℤ) = 4 + tk.gs.wave
      rw [hs.1, Int.toNat_of_nonneg (by omega)]
      ring
    · intro a ha
      exact (hs.2 a ha).1
    · intro a ha
      exact (hs.2 a ha).2.2

/-- C5 (witness): clearing the last obstacle of wave 1 yields wave 2 and five
freshly spawned large obstacles outside the safe zone. -/
theorem wave_respawn_witness :
    tkWaveExAfter.gs.wave = tkWaveEx.gs.wave + 1 ∧
    (tkWaveExAfter.gs.asteroids.length : ℤ) = 4 + tkWaveEx.gs.wave ∧
    allLarge tkWaveExAfter.gs.asteroids ∧
    outsideSafeZone tkWaveExAfter.gs.asteroids :=
  wave_respawn tkWaveEx tkWaveExAfter (by decide) (by decide) (by decide)

/-! ## C6 — buff pickup -/

/-- C6: picking up a buff consumes it and sets the matching ship timer to
exactly its full fixed duration of 300 ticks (5 seconds), overwriting any
remaining duration rather than adding to it — the result is 300 no matter
what the timer held before — and raises the matching flag; the other buff's
timer and flag are untouched. -/
theorem buff_pickup_overwrites_timer (tk : Tick) (pre suf : List PowerUp)
    (p : PowerUp)
    (hsf : splitFirst (fun q => q.check_collision_ship tk.gs.ship) tk.gs.powerups
      = some (pre, p, suf)) :
    (powerupPhase tk).gs.ship.rapid_fire_timer =
      (if p.power_type = PType.rapid_fire then 300 else tk.gs.ship.rapid_fire_timer) ∧
    (powerupPhase tk).gs.ship.shield_timer =
      (if p.power_type = PType.shield then 300 else tk.gs.ship.shield_timer) ∧
    (powerupPhase tk).gs.ship.rapid_fire =
      (if p.power_type = PType.rapid_fire then true else tk.gs.ship.rapid_fire) ∧
    (powerupPhase tk).gs.ship.shield =
      (if p.power_type = PType.shield then true else tk.gs.ship.shield) ∧
    (powerupPhase tk).gs.powerups = pre ++ suf ∧
    tk.gs.powerups = pre ++ p :: suf := by
  unfold powerupPhase
  rw [hsf]
  dsimp only
  rcases hp : p.power_type with _ | _ <;> simp [splitFirst_eq hsf]

/-- C6 (witness): a ship with `rapid_fire_timer = 50` collecting a
rate-of-fire buff ends with the timer at exactly 300, not 350. -/
theorem buff_pickup_overwrites_timer_witness :
    (powerupPhase tkBuffEx).gs.ship.rapid_fire_timer =
      (if pBuffEx.power_type = PType.rapid_fire then 300
       else tkBuffEx.gs.ship.rapid_fire_timer) ∧
    (powerupPhase tkBuffEx).gs.ship.shield_timer =
      (if pBuffEx.power_type = PType.shield then 300
       else tkBuffEx.gs.ship.shield_timer) ∧
    (powerupPhase tkBuffEx).gs.ship.rapid_fire =
      (if pBuffEx.power_type = PType.rapid_fire then true
       else tkBuffEx.gs.ship.rapid_fire) ∧
    (powerupPhase tkBuffEx).gs.ship.shield =
      (if pBuffEx.power_type = PType.shield then true
       else tkBuffEx.gs.ship.shield) ∧
    (powerupPhase tkBuffEx).gs.powerups = [] ++ [] ∧
    tkBuffEx.gs.powerups = [] ++ pBuffEx :: [] :=
  buff_pickup_overwrites_timer tkBuffEx [] [] pBuffEx (by decide)

/-! ## C7 — teleport -/

set_option maxRecDepth 4000 in
/-- C7 (counterexample): the claim "the ship's position changes" is not
guaranteed.  The relocation point is drawn uniformly from
`[100, W−100] × [100, H−100]` with no re-roll, so it can coincide with the old
position: from `cexTeleportState` (ship at `(600, 450)`) with entropy naming
`(600, 450)`, the teleport is accepted (cooldown 180, decremented to 179 by the
same tick's timer update; exactly 60 particles; velocity zeroed) yet the ship
ends the tick exactly where it started. -/
theorem teleport_same_position_counterexample :
    cexTeleportState.ship.hyperspace_cooldown = 0 ∧
    cexTeleportState.ship.x = 600 ∧ cexTeleportState.ship.y = 450 ∧
    (advanceTick trigZ keysTeleport rngTeleport cexTeleportState).map
      (fun q => (q.1.ship.x, q.1.ship.y, q.1.ship.vx, q.1.ship.vy,
                 q.1.ship.hyperspace_cooldown, q.1.particles.length)) =
      some (600, 450, 0, 0, 179, 60) :=
  ⟨by decide, by decide, by decide, by decide⟩

/-- C7 (amended): when teleport is requested with the cooldown at 0 (and no
thrust that tick), the input resolver zeroes the ship's velocity, relocates it
to a drawn point of `[100, 1100] × [100, 800]` — possibly equal to the old
position — resets the cooldown to 180 ticks, and appends exactly 60 particles:
30 at the old position followed by 30 at the new one. -/
theorem teleport_amended (T : Trig) (keys : Keys) (s : Ship)
    (particles : List Particle) (r : List ℚ)
    (hk : keys.lshift = true) (hup : keys.up = false)
    (hc : s.hyperspace_cooldown ≤ 0) :
    (Ship.handle_input T keys s particles r).1.hyperspace_cooldown = 180 ∧
    (Ship.handle_input T keys s particles r).1.vx = 0 ∧
    (Ship.handle_input T keys s particles r).1.vy = 0 ∧
    (100 ≤ (Ship.handle_input T keys s particles r).1.x ∧
      (Ship.handle_input T keys s particles r).1.x ≤ 1100) ∧
    (100 ≤ (Ship.handle_input T keys s particles r).1.y ∧
      (Ship.handle_input T keys s particles r).1.y ≤ 800) ∧
    (Ship.handle_input T keys s particles r).2.1.length = particles.length + 60 ∧
    (((Ship.handle_input T keys s particles r).2.1.drop particles.length).take 30).map
      (fun q => (q.x, q.y)) = List.replicate 30 (s.x, s.y) ∧
    ((Ship.handle_input T keys s particles r).2.1.drop (particles.length + 30)).map
      (fun q => (q.x, q.y)) =
      List.replicate 30 ((Ship.handle_input T keys s particles r).1.x,
        (Ship.handle_input T keys s particles r).1.y) := by
  obtain ⟨kl, kr, ku, kc, ks⟩ := keys
  simp only at hk hup
  subst hk
  subst hup
  unfold Ship.handle_input
  cases kl <;> cases kr <;>
    · dsimp only
      simp only [Bool.false_eq_true, Bool.true_eq_false, ite_false, ite_true,
        if_false, if_true]
      rw [if_pos ⟨trivial, hc⟩]
      unfold Ship.hyperspace_jump
      dsimp only
      refine ⟨rfl, rfl, rfl, ⟨?_, ?_⟩, ⟨?_, ?_⟩, ?_, ?_, ?_⟩
      · exact_mod_cast (randintQ_bounds 100 1100 _ (by norm_num)).1
      · exact_mod_cast (randintQ_bounds 100 1100 _ (by norm_num)).2
      · exact_mod_cast (randintQ_bounds 100 800 _ (by norm_num)).1
      · exact_mod_cast (randintQ_bounds 100 800 _ (by norm_num)).2
      · simp [spawnBurst_length]
      · rw [List.append_assoc, List.drop_left,
          List.take_left' (spawnBurst_length _ _ _ _ _ _ _ 30 _),
          spawnBurst_posMap]
      · rw [List.drop_left' (by simp [spawnBurst_length]), spawnBurst_posMap]

/-- C7 (witness): the amended teleport statement evaluated on a concrete
centered ship with an empty particle list and empty entropy. -/
theorem teleport_amended_witness :
    (Ship.handle_input trigZ keysTeleport shipTeleEx [] []).1.hyperspace_cooldown = 180 ∧
    (Ship.handle_input trigZ keysTeleport shipTeleEx [] []).1.vx = 0 ∧
    (Ship.handle_input trigZ keysTeleport shipTeleEx [] []).1.vy = 0 ∧
    (100 ≤ (Ship.handle_input trigZ keysTeleport shipTeleEx [] []).1.x ∧
      (Ship.handle_input trigZ keysTeleport shipTeleEx [] []).1.x ≤ 1100) ∧
    (100 ≤ (Ship.handle_input trigZ keysTeleport shipTeleEx [] []).1.y ∧
      (Ship.handle_input trigZ keysTeleport shipTeleEx [] []).1.y ≤ 800) ∧
    (Ship.handle_input trigZ keysTeleport shipTeleEx [] []).2.1.length =
      ([] : List Particle).length + 60 ∧
    (((Ship.handle_input trigZ keysTeleport shipTeleEx [] []).2.1.drop
        ([] : List Particle).length).take 30).map (fun q => (q.x, q.y)) =
      List.replicate 30 (shipTeleEx.x, shipTeleEx.y) ∧
    ((Ship.handle_input trigZ keysTeleport shipTeleEx [] []).2.1.drop
        (([] : List Particle).length + 30)).map (fun q => (q.x, q.y)) =
      List.replicate 30 ((Ship.handle_input trigZ keysTeleport shipTeleEx [] []).1.x,
        (Ship.handle_input trigZ keysTeleport shipTeleEx [] []).1.y) :=
  teleport_amended trigZ keysTeleport shipTeleEx [] [] (by decide) (by decide) (by decide)

/-! ## C8 — GameOver is a no-op until reset -/

/-- C8: advancing a tick while the session is in GameOver leaves the whole
simulation state untouched and produces no events; the explicit external
restart reinitializes score to 0, lives to 3, wave to 1, clears every entity
collection, and installs a fresh centered ship and a fresh first wave of 4
large obstacles, returning to Playing. -/
theorem gameover_noop_and_reset (T : Trig) (keys : Keys) (r r2 : List ℚ)
    (st st' : GameState)
    (hgo : st.game_over = true) (hr : restart st r2 = some st') :
    advanceTick T keys r st = some (st, []) ∧
    st'.score = 0 ∧ st'.lives = 3 ∧ st'.wave = 1 ∧
    st'.ship = Ship.init 600 450 ∧ st'.bullets = [] ∧ st'.ufo_bullets = [] ∧
    st'.particles = [] ∧ st'.powerups = [] ∧ st'.ufo = none ∧
    st'.game_over = false ∧ st'.asteroids.length = 4 ∧
    allLarge st'.asteroids := by
  constructor
  · unfold advanceTick
    rw [if_pos hgo]
  · unfold restart at hr
    rcases hsp : spawn_asteroids 4 ASize.large 1 r2 with _ | ⟨spawned, r1⟩ <;>
      rw [hsp] at hr
    · simp at hr
    · dsimp only at hr
      simp only [Option.some_inj] at hr
      subst hr
      unfold spawn_asteroids at hsp
      have hs := spawnLoop_spec ASize.large _ _ _ hsp
      refine ⟨rfl, rfl, rfl, rfl, rfl, rfl, rfl, rfl, rfl, rfl, ?_, ?_⟩
      · show spawned.length = 4
        rw [hs.1]
        decide
      · intro a ha
        exact (hs.2 a ha).1

/-- C8 (witness): a concrete GameOver state is left untouched with no events,
and its restart carries score 0, lives 3, wave 1, a fresh centered ship and
four large obstacles. -/
theorem gameover_noop_and_reset_witness :
    advanceTick trigZ Keys.released [] goStateEx = some (goStateEx, []) ∧
    resetStateEx.score = 0 ∧ resetStateEx.lives = 3 ∧ resetStateEx.wave = 1 ∧
    resetStateEx.ship = Ship.init 600 450 ∧ resetStateEx.bullets = [] ∧
    resetStateEx.ufo_bullets = [] ∧ resetStateEx.particles = [] ∧
    resetStateEx.powerups = [] ∧ resetStateEx.ufo = none ∧
    resetStateEx.game_over = false ∧ resetStateEx.asteroids.length = 4 ∧
    allLarge resetStateEx.asteroids :=
  gameover_noop_and_reset trigZ Keys.released [] [] goStateEx resetStateEx
    (by decide) (by decide)

/-! ## C9 — minimum obstacle velocity -/

theorem forceMinSpeed_bound (u : ℚ) : 1/2 ≤ |forceMinSpeed u| := by
  unfold forceMinSpeed
  split_ifs with h1 h2
  · norm_num
  · norm_num
  · exact le_of_not_lt h1

/-- C9: in `Asteroid.__init__`, an initial velocity component whose magnitude
is below the `0.5` threshold is replaced by a sign-matching unit-magnitude
value (`|result| = 1`); a component at or above the threshold is kept
unchanged; consequently both velocity components of every freshly created
obstacle have magnitude at least `0.5`, so no obstacle is ever
near-stationary. -/
theorem asteroid_min_velocity (v w x y : ℚ) (sz : ASize) (r : List ℚ)
    (hv : |v| < 1/2) (hw : 1/2 ≤ |w|) :
    |forceMinSpeed v| = 1 ∧
    forceMinSpeed w = w ∧
    1/2 ≤ |forceMinSpeed v| ∧ 1/2 ≤ |forceMinSpeed w| ∧
    1/2 ≤ |(Asteroid.init x y sz r).1.vx| ∧
    1/2 ≤ |(Asteroid.init x y sz r).1.vy| := by
  refine ⟨?_, ?_, forceMinSpeed_bound v, forceMinSpeed_bound w,
    forceMinSpeed_bound _, forceMinSpeed_bound _⟩
  · unfold forceMinSpeed
    rw [if_pos hv]
    split_ifs <;> norm_num
  · unfold forceMinSpeed
    rw [if_neg (not_lt.mpr hw)]

/-- C9 (witness): a slow component `1/4` is forced to magnitude 1, a fast
component `2` is kept, and a freshly created obstacle's components are at
least `1/2` in magnitude. -/
theorem asteroid_min_velocity_witness :
    |forceMinSpeed (1/4)| = 1 ∧
    forceMinSpeed 2 = 2 ∧
    1/2 ≤ |forceMinSpeed (1/4)| ∧ 1/2 ≤ |forceMinSpeed 2| ∧
    1/2 ≤ |(Asteroid.init 50 60 ASize.large [(-1/4), (3/2)]).1.vx| ∧
    1/2 ≤ |(Asteroid.init 50 60 ASize.large [(-1/4), (3/2)]).1.vy| :=
  asteroid_min_velocity (1/4) 2 50 60 ASize.large [(-1/4), (3/2)]
    (by decide) (by decide)

/-! ## C10 — at most one ship hit per tick -/

theorem shipAsteroidPhase_lives (T : Trig) (tk : Tick) :
    ((shipAsteroidPhase T tk).gs.lives = tk.gs.lives ∧
     (shipAsteroidPhase T tk).gs.ship = tk.gs.ship) ∨
    ((shipAsteroidPhase T tk).gs.lives = tk.gs.lives - 1 ∧
     (shipAsteroidPhase T tk).gs.ship = respawnShip) := by
  unfold shipAsteroidPhase
  split
  · rcases hsf : splitFirst (fun a => a.check_collision_ship tk.gs.ship) tk.gs.asteroids with
      _ | ⟨pre, a, suf⟩ <;> rw [hsf]
    · exact Or.inl ⟨rfl, rfl⟩
    · exact Or.inr ⟨rfl, rfl⟩
  · exact Or.inl ⟨rfl, rfl⟩

theorem ufoBulletShipPhase_lives (T : Trig) (tk : Tick) :
    ((ufoBulletShipPhase T tk).gs.lives = tk.gs.lives ∧
     (ufoBulletShipPhase T tk).gs.ship = tk.gs.ship) ∨
    ((ufoBulletShipPhase T tk).gs.lives = tk.gs.lives - 1 ∧
     (ufoBulletShipPhase T tk).gs.ship = respawnShip) := by
  unfold ufoBulletShipPhase
  split
  · rcases hsf : splitFirst
        (fun b => collides tk.gs.ship.x tk.gs.ship.y Ship.radius b.x b.y Bullet.radius)
        tk.gs.ufo_bullets with _ | ⟨pre, b, suf⟩ <;> rw [hsf]
    · exact Or.inl ⟨rfl, rfl⟩
    · exact Or.inr ⟨rfl, rfl⟩
  · exact Or.inl ⟨rfl, rfl⟩

theorem shipUfoPhase_lives (T : Trig) (tk : Tick) :
    ((shipUfoPhase T tk).gs.lives = tk.gs.lives ∧
     (shipUfoPhase T tk).gs.ship = tk.gs.ship) ∨
    ((shipUfoPhase T tk).gs.lives = tk.gs.lives - 1 ∧
     (shipUfoPhase T tk).gs.ship = respawnShip) := by
  unfold shipUfoPhase
  rcases hu : tk.gs.ufo with _ | u
  · exact Or.inl ⟨rfl, rfl⟩
  · dsimp only
    split
    · exact Or.inr ⟨rfl, rfl⟩
    · exact Or.inl ⟨rfl, rfl⟩

theorem ufoBulletShipPhase_invuln (T : Trig) (tk : Tick)
    (h : tk.gs.ship.invulnerable = true) : ufoBulletShipPhase T tk = tk := by
  unfold ufoBulletShipPhase
  rw [if_neg (by simp [h])]

theorem shipUfoPhase_invuln (T : Trig) (tk : Tick)
    (h : tk.gs.ship.invulnerable = true) : shipUfoPhase T tk = tk := by
  unfold shipUfoPhase
  rcases hu : tk.gs.ufo with _ | u
  · rfl
  · dsimp only
    rw [if_neg (by simp [h])]

theorem respawnShip_invuln : respawnShip.invulnerable = true := rfl

theorem shipPhases_lives (T : Trig) (tk : Tick) :
    ((shipUfoPhase T (ufoBulletShipPhase T (shipAsteroidPhase T tk))).gs.lives =
        tk.gs.lives) ∨
    ((shipUfoPhase T (ufoBulletShipPhase T (shipAsteroidPhase T tk))).gs.lives =
        tk.gs.lives - 1 ∧
     (shipUfoPhase T (ufoBulletShipPhase T (shipAsteroidPhase T tk))).gs.ship.invulnerable
        = true) := by
  rcases shipAsteroidPhase_lives T tk with ⟨hl1, hs1⟩ | ⟨hl1, hs1⟩
  · rcases ufoBulletShipPhase_lives T (shipAsteroidPhase T tk) with
      ⟨hl2, hs2⟩ | ⟨hl2, hs2⟩
    · rcases shipUfoPhase_lives T (ufoBulletShipPhase T (shipAsteroidPhase T tk)) with
        ⟨hl3, _⟩ | ⟨hl3, hs3⟩
      · exact Or.inl (by rw [hl3, hl2, hl1])
      · exact Or.inr ⟨by rw [hl3, hl2, hl1], by rw [hs3]; exact respawnShip_invuln⟩
    · have hinv : (ufoBulletShipPhase T (shipAsteroidPhase T tk)).gs.ship.invulnerable
          = true := by rw [hs2]; exact respawnShip_invuln
      rw [shipUfoPhase_invuln T _ hinv]
      exact Or.inr ⟨by rw [hl2, hl1], hinv⟩
  · have hinv : (shipAsteroidPhase T tk).gs.ship.invulnerable = true := by
      rw [hs1]; exact respawnShip_invuln
    rw [ufoBulletShipPhase_invuln T _ hinv, shipUfoPhase_invuln T _ hinv]
    exact Or.inr ⟨hl1, hinv⟩

/-- C10: over one full `advance_tick`, lives decrease by at most one: either
they are unchanged, or exactly one ship-destroying hit was resolved — in which
case the replacement ship is invulnerable, so every later ship-collision check
of the same tick re-tests invulnerability and is skipped. -/
theorem lives_decrease_at_most_one (T : Trig) (keys : Keys) (r : List ℚ)
    (st st' : GameState) (ev : List Event)
    (h : advanceTick T keys r st = some (st', ev)) :
    st'.lives = st.lives ∨
    (st'.lives = st.lives - 1 ∧ st'.ship.invulnerable = true) := by
  unfold advanceTick at h
  by_cases hgo : st.game_over = true
  · rw [if_pos hgo] at h
    simp only [Option.some_inj, Prod.mk.injEq] at h
    obtain ⟨h1, _⟩ := h
    exact Or.inl (by rw [← h1])
  · rw [if_neg hgo] at h
    dsimp only at h
    generalize hB : bulletCollisionPhase T (powerupMotionPhase (ufoSpawnPhase (ufoPhase T
      (motionPhase (firePhase T keys (inputPhase T keys ⟨st, [], r⟩)))))) = tkB at h
    have hBl : tkB.gs.lives = st.lives := by
      rw [← hB, (bulletCollisionPhase_fields T _).2.1,
        (powerupMotionPhase_fields _).2.2.2, (ufoSpawnPhase_fields _).2.2.2,
        (ufoPhase_fields T _).2.2.2, (motionPhase_fields _).2.1,
        (firePhase_fields T keys _).2.2, (inputPhase_fields T keys _).2.2]
    rcases hw : wavePhase (powerupPhase (shipUfoPhase T (ufoBulletShipPhase T
      (shipAsteroidPhase T tkB)))) with _ | tk3 <;> rw [hw] at h
    · simp at h
    · dsimp only at h
      simp only [Option.some_inj, Prod.mk.injEq] at h
      obtain ⟨h1, _⟩ := h
      subst h1
      obtain ⟨hw1, _, hw3⟩ := wavePhase_fields _ _ hw
      have hp := powerupPhase_fields (shipUfoPhase T (ufoBulletShipPhase T
        (shipAsteroidPhase T tkB)))
      rcases shipPhases_lives T tkB with hA | ⟨hA, hAi⟩
      · exact Or.inl (by rw [hw3, hp.2.2.2.2.2, hA, hBl])
      · refine Or.inr ⟨by rw [hw3, hp.2.2.2.2.2, hA, hBl], ?_⟩
        rw [hw1, hp.2.2.1, hAi]

set_option maxRecDepth 4000 in
/-- C10 (witness): a vulnerable ship overlapping an obstacle loses exactly one
life in the tick and re-emerges invulnerable. -/
theorem lives_decrease_at_most_one_witness :
    c10After.lives = c10State.lives ∨
    (c10After.lives = c10State.lives - 1 ∧ c10After.ship.invulnerable = true) :=
  lives_decrease_at_most_one trigZ Keys.released [] c10State c10After
    [Event.explosion, Event.levelUp] (by decide)

end AsteroidsDeluxe
